import Mathlib

/-!
# FabricMaya attribute construction (`lib/FabricMayaAttrs.cpp`)

A shallow embedding of the attribute builder of SpliceMaya: the string
classifiers `ParseDataType` / `ParseArrayType`, the option readers, the range
decoration `ApplyMinMax`, the finalize step `SetupMayaAttribute` and the
dispatch `CreateMayaAttribute`, followed by theorems about them.

Conventions of the embedding:
* a thrown `FabricCore::Exception` is `Except.error (Failure.exception msg)`,
  a failed `assert` is `Except.error Failure.assertFailed`;
* host attribute objects are values of `MayaAttr`; a property that the code
  never sets is `none` (the host default stays in force);
* a numeric option value is stored as an exact rational; reading it as a C
  `float` narrows it to the nearest binary32 value (`castToFloat`).
-/

namespace FabricMaya

/-! ## Data model -/

/-- The `DataType` enumerators used by `FabricMayaAttrs.cpp`. -/
inductive DataType where
  | DT_Boolean
  | DT_Integer
  | DT_Scalar
  | DT_String
  | DT_Vec3
  | DT_Euler
  | DT_Mat44
  | DT_Color
  | DT_PolygonMesh
  | DT_Curves
  | DT_Curve
  | DT_Lines
  | DT_KeyframeTrack
  | DT_SpliceMayaData
  | DT_CompoundParam
  deriving DecidableEq, Repr

/-- The `ArrayType` enumerators used by `FabricMayaAttrs.cpp`. -/
inductive ArrayType where
  | AT_Single
  | AT_Array_Multi
  | AT_Array_Native
  deriving DecidableEq, Repr

/-- How a call can fail: a thrown `FabricCore::Exception` carrying its
message, or a failed `assert`. -/
inductive Failure where
  | exception (msg : String)
  | assertFailed
  deriving DecidableEq, Repr

/-- The engine's dynamic value `FabricCore::Variant`: a tagged union. A
dictionary lists its entries in iteration order; a numeric variant holds a
finite number, given exactly. -/
inductive Variant where
  | null
  | boolean (b : Bool)
  | sint8 (v : Int)
  | sint16 (v : Int)
  | sint32 (v : Int)
  | sint64 (v : Int)
  | uint8 (v : Nat)
  | uint16 (v : Nat)
  | uint32 (v : Nat)
  | uint64 (v : Nat)
  | float32 (v : Rat)
  | float64 (v : Rat)
  | string (s : String)
  | array (items : List Variant)
  | dict (entries : List (String × Variant))

/-! ## C float values -/

/-- A value of the C type `float` that a finite number narrows to: a finite
binary32 value, given by the rational it stands for, or an infinity. -/
inductive FloatValue where
  | negInf
  | finite (q : Rat)
  | posInf
  deriving DecidableEq

instance (n : Nat) : OfNat FloatValue n := ⟨.finite n⟩

/-- The comparison `a < b` of two float values. -/
def FloatValue.lt : FloatValue → FloatValue → Bool
  | .negInf, .negInf => false
  | .negInf, _ => true
  | .finite _, .negInf => false
  | .finite a, .finite b => decide (a < b)
  | .finite _, .posInf => true
  | .posInf, _ => false

instance : LT FloatValue := ⟨fun a b => FloatValue.lt a b = true⟩

/-- With no NaN among the values, `a <= b` is the negation of `b < a`. -/
instance : LE FloatValue := ⟨fun a b => FloatValue.lt b a = false⟩

instance (a b : FloatValue) : Decidable (a < b) := by
  show Decidable (FloatValue.lt a b = true)
  infer_instance

instance (a b : FloatValue) : Decidable (a ≤ b) := by
  show Decidable (FloatValue.lt b a = false)
  infer_instance

/-- The power of two `2 ^ e` for an integer exponent. -/
def pow2 (e : Int) : Rat :=
  if 0 ≤ e then ((2 ^ e.toNat : Nat) : Rat) else 1 / ((2 ^ (-e).toNat : Nat) : Rat)

/-- Binary logarithm by repeated halving, at most `fuel` times. -/
def log2Fuel : Nat → Nat → Nat
  | 0, _ => 0
  | fuel + 1, n => if n < 2 then 0 else log2Fuel fuel (n / 2) + 1

/-- The floor of the binary logarithm of a positive natural number, 0 at 0. -/
def natLog2 (n : Nat) : Nat := log2Fuel n n

/-- The floor of the binary logarithm of a positive rational. -/
def floorLog2 (a : Rat) : Int :=
  let e0 : Int := (natLog2 a.num.natAbs : Int) - (natLog2 a.den : Int)
  if a < pow2 e0 then e0 - 1 else e0

/-- The quotient `n / d` rounded to the nearest integer, ties to even. -/
def roundHalfEven (n d : Nat) : Nat :=
  let q := n / d
  let r := n % d
  if 2 * r < d then q
  else if d < 2 * r then q + 1
  else q + q % 2

/-- The C conversion `(float)x` of lines 192-201, for IEEE binary32 with
round to nearest, ties to even: 24 significant bits, least exponent -126 with
gradual underflow (steps of `2 ^ -149`), and infinity from `2 ^ 128` on. -/
def castToFloat (x : Rat) : FloatValue :=
  if x = 0 then .finite 0
  else
    let a : Rat := if x < 0 then -x else x
    let e : Int := max (floorLog2 a) (-126)
    let k : Int := e - 23
    let n : Nat :=
      if 0 ≤ k then roundHalfEven a.num.natAbs (a.den * 2 ^ k.toNat)
      else roundHalfEven (a.num.natAbs * 2 ^ (-k).toNat) a.den
    let m : Rat := (n : Rat) * pow2 k
    if pow2 128 ≤ m then (if x < 0 then .negInf else .posInf)
    else .finite (if x < 0 then -m else m)

/-! ## String helpers -/

/-- The infix test used to say that a message names a string: `sub` occurs
in `msg` as a contiguous run of characters. -/
def Mentions (msg sub : String) : Prop :=
  sub.data <:+: msg.data

instance (msg sub : String) : Decidable (Mentions msg sub) := by
  unfold Mentions
  infer_instance

/-- The call `dataTypeStr.split('[').first`: the characters before the first
`'['`, the whole string when there is none. -/
def splitFirst (s : String) : String :=
  String.mk (s.data.takeWhile (fun c => c != '['))

/-- The test `str.find('[') != str.end()`. -/
def hasBracket (s : String) : Bool :=
  s.data.contains '['

/-! ## Error constructors -/

/-- The message built by `ThrowIncompatibleDataArrayTypes` (lines 23-35). The
source appends `dataTypeStr` at both places. -/
def incompatibleMessage (dataTypeStr _arrayTypeStr : String) : String :=
  "DataType '" ++ dataTypeStr ++ "' incompatible with ArrayType '" ++ dataTypeStr ++ "'"

/-- Embedding of `ThrowIncompatibleDataArrayTypes`: always throws. -/
def ThrowIncompatibleDataArrayTypes {α : Type} (dataTypeStr arrayTypeStr : String) :
    Except Failure α :=
  .error (.exception (incompatibleMessage dataTypeStr arrayTypeStr))

/-- The message built by `ThrowInvalidDataType` (lines 37-50). -/
def invalidDataTypeMessage (dataTypeStr : String) : String :=
  if dataTypeStr ≠ "Execute" ∧ dataTypeStr ≠ "ManipHandle" ∧ dataTypeStr ≠ "DrawingHandle" then
    "Unhandled DataType '" ++ dataTypeStr ++ "'"
  else
    ""

/-- Embedding of `ThrowInvalidDataType`: always throws. -/
def ThrowInvalidDataType {α : Type} (dataTypeStr : String) : Except Failure α :=
  .error (.exception (invalidDataTypeMessage dataTypeStr))

/-- The comparison chain of `ParseDataType` (lines 56-100): the DataType that
a type name returns, `none` when every comparison fails and control falls
through to line 102. -/
def typeOfName (dataTypeOverride : String) : Option DataType :=
  if dataTypeOverride = "Boolean" then some .DT_Boolean
  else if dataTypeOverride = "Scalar" then some .DT_Scalar
  else if dataTypeOverride = "Float32" then some .DT_Scalar
  else if dataTypeOverride = "Float64" then some .DT_Scalar
  else if dataTypeOverride = "Integer" then some .DT_Integer
  else if dataTypeOverride = "SInt8" then some .DT_Integer
  else if dataTypeOverride = "SInt16" then some .DT_Integer
  else if dataTypeOverride = "SInt32" then some .DT_Integer
  else if dataTypeOverride = "SInt64" then some .DT_Integer
  else if dataTypeOverride = "Byte" then some .DT_Integer
  else if dataTypeOverride = "UInt8" then some .DT_Integer
  else if dataTypeOverride = "UInt16" then some .DT_Integer
  else if dataTypeOverride = "Count" then some .DT_Integer
  else if dataTypeOverride = "Index" then some .DT_Integer
  else if dataTypeOverride = "Size" then some .DT_Integer
  else if dataTypeOverride = "UInt32" then some .DT_Integer
  else if dataTypeOverride = "DataSize" then some .DT_Integer
  else if dataTypeOverride = "UInt64" then some .DT_Integer
  else if dataTypeOverride = "String" then some .DT_String
  else if dataTypeOverride = "Vec3" then some .DT_Vec3
  else if dataTypeOverride = "Euler" then some .DT_Euler
  else if dataTypeOverride = "Mat44" then some .DT_Mat44
  else if dataTypeOverride = "Color" then some .DT_Color
  else if dataTypeOverride = "PolygonMesh" then some .DT_PolygonMesh
  else if dataTypeOverride = "Curves" then some .DT_Curves
  else if dataTypeOverride = "Curve" then some .DT_Curve
  else if dataTypeOverride = "Lines" then some .DT_Lines
  else if dataTypeOverride = "KeyframeTrack" then some .DT_KeyframeTrack
  else if dataTypeOverride = "SpliceMayaData" then some .DT_SpliceMayaData
  else if dataTypeOverride = "CompoundParam" then some .DT_CompoundParam
  else none

/-- Embedding of `ParseDataType` (lines 52-106): the chain is run on the part
before the first bracket; if no comparison succeeds, `ThrowInvalidDataType`
is called with the whole string. -/
def ParseDataType (dataTypeStr : String) : Except Failure DataType :=
  let dataTypeOverride := splitFirst dataTypeStr
  match typeOfName dataTypeOverride with
  | some dataType => .ok dataType
  | none => ThrowInvalidDataType dataTypeStr

/-- The type names that the comparison chain of `ParseDataType` recognises,
in source order. -/
def recognisedTypeNames : List String :=
  ["Boolean", "Scalar", "Float32", "Float64", "Integer", "SInt8", "SInt16", "SInt32",
   "SInt64", "Byte", "UInt8", "UInt16", "Count", "Index", "Size", "UInt32", "DataSize",
   "UInt64", "String", "Vec3", "Euler", "Mat44", "Color", "PolygonMesh", "Curves", "Curve",
   "Lines", "KeyframeTrack", "SpliceMayaData", "CompoundParam"]

/-- The message built by `ThrowInvalidArrayType` (lines 108-115). -/
def invalidArrayTypeMessage (arrayTypeStr : String) : String :=
  "Unrecognized ArrayType '" ++ arrayTypeStr ++ "'"

/-- Embedding of `ThrowInvalidArrayType`: always throws. -/
def ThrowInvalidArrayType {α : Type} (arrayTypeStr : String) : Except Failure α :=
  .error (.exception (invalidArrayTypeMessage arrayTypeStr))

/-- Embedding of `ParseArrayType` (lines 117-127). -/
def ParseArrayType (arrayTypeStr : String) : Except Failure ArrayType :=
  if arrayTypeStr = "Single Value" then .ok .AT_Single
  else if arrayTypeStr = "Array (Multi)" then .ok .AT_Array_Multi
  else if arrayTypeStr = "Array (Native)" then .ok .AT_Array_Native
  else ThrowInvalidArrayType arrayTypeStr


/-! ## Host attribute objects -/

/-- The numeric kinds passed to `MFnNumericAttribute::create`. -/
inductive NumericKind where
  | kBoolean
  | kInt
  | kDouble
  deriving DecidableEq, Repr

/-- The data kinds passed to `MFnTypedAttribute::create`. -/
inductive TypedKind where
  | kIntArray
  | kDoubleArray
  | kString
  | kMesh
  | kNurbsCurve
  | kVectorArray
  | spliceMayaData
  deriving DecidableEq, Repr

/-- The unit kinds passed to `MFnUnitAttribute::create`. -/
inductive UnitKind where
  | kTime
  | kAngle
  | kDistance
  deriving DecidableEq, Repr

/-- Which host construction primitive made an attribute. -/
inductive AttrKind where
  | numeric (k : NumericKind)
  | numeric3
  | color
  | colorComponent
  | typed (k : TypedKind)
  | unit (k : UnitKind)
  | matrix
  | message
  | compound
  deriving DecidableEq, Repr

/-- The properties that the builder sets on an attribute through the host's
setters; `none` means the setter was never called. -/
structure AttrProps where
  readable : Option Bool := none
  writable : Option Bool := none
  storable : Option Bool := none
  keyable : Option Bool := none
  array : Option Bool := none
  usesArrayDataBuilder : Option Bool := none
  min : Option FloatValue := none
  max : Option FloatValue := none
  softMin : Option FloatValue := none
  softMax : Option FloatValue := none
  deriving DecidableEq

/-- A host attribute: its name, the primitive that made it, the properties
set on it and its child attributes in order. -/
inductive MayaAttr where
  | mk (name : String) (kind : AttrKind) (props : AttrProps) (children : List MayaAttr)

/-- A host object handle `MObject`: `none` is the null object. -/
abbrev MObject := Option MayaAttr

namespace MayaAttr

/-- The name of an attribute. -/
def name : MayaAttr → String
  | mk n _ _ _ => n

/-- The primitive that made an attribute. -/
def kind : MayaAttr → AttrKind
  | mk _ k _ _ => k

/-- The properties set on an attribute. -/
def props : MayaAttr → AttrProps
  | mk _ _ p _ => p

/-- The children of an attribute, in order. -/
def children : MayaAttr → List MayaAttr
  | mk _ _ _ cs => cs

/-- Replace the properties of an attribute. -/
def withProps : MayaAttr → AttrProps → MayaAttr
  | mk n k _ cs, p => mk n k p cs

/-- Replace the children of an attribute. -/
def withChildren : MayaAttr → List MayaAttr → MayaAttr
  | mk n k p _, cs => mk n k p cs

end MayaAttr

/-- A freshly created attribute without children: no setter called yet. -/
def freshAttr (name : String) (kind : AttrKind) : MayaAttr :=
  .mk name kind {} []

/-- The call `MFnCompoundAttribute::create(name, name)` followed by `addChild`
of every element of `childAttrs` in index order (lines 338-341). -/
def createCompound (name : String) (childAttrs : List MayaAttr) : MayaAttr :=
  .mk name .compound {} childAttrs

/-- The call `MFnNumericAttribute::create(name, name, objX, objY, objZ)`. -/
def createNumeric3 (name : String) (objX objY objZ : MayaAttr) : MayaAttr :=
  .mk name .numeric3 {} [objX, objY, objZ]

/-! ## Finalize step -/

/-- Embedding of `SetupMayaAttribute` (lines 129-176). -/
def SetupMayaAttribute (attr : MayaAttr) (dataType : DataType) (_dataTypeStr : String)
    (arrayType : ArrayType) (_arrayTypeStr : String) (isInput isOutput : Bool) : MayaAttr :=
  let p0 := attr.props
  let p1 := { p0 with readable := some isOutput, writable := some isInput }
  let p2 :=
    match dataType with
    | .DT_PolygonMesh | .DT_Curves | .DT_Curve | .DT_Lines | .DT_SpliceMayaData =>
      { p1 with storable := some false, keyable := some false }
    | _ =>
      { p1 with storable := some (isInput && !isOutput), keyable := some (isInput && !isOutput) }
  let p3 :=
    match arrayType with
    | .AT_Single | .AT_Array_Native =>
      { p2 with array := some false, usesArrayDataBuilder := some false }
    | .AT_Array_Multi =>
      { p2 with array := some true,
                usesArrayDataBuilder := some (decide (dataType ≠ .DT_KeyframeTrack)) }
  attr.withProps p3

/-- The call `MFnNumericAttribute::createColor(name, name)`: the host makes
the colour attribute together with its three component children. The
component names are the host's; nothing below depends on them. -/
def createColor (name : String) : MayaAttr :=
  .mk name .color {}
    [freshAttr (name ++ "R") .colorComponent,
     freshAttr (name ++ "G") .colorComponent,
     freshAttr (name ++ "B") .colorComponent]

/-! ## Option readers -/

/-- The call `Variant::getDictValue(key)` on the entries of a dictionary:
the value of the first entry stored under `key`, if any. -/
def getDictValue (key : String) : List (String × Variant) → Option Variant
  | [] => none
  | (k, v) :: rest => if k = key then some v else getDictValue key rest

/-- Embedding of `GetScalarOption` (lines 179-204): the result is a C
`float`, every numeric branch converting the stored value by `(float)`. -/
def GetScalarOption (key : String) (options : Variant) (defaultValue : FloatValue := 0) :
    FloatValue :=
  match options with
  | .dict entries =>
    match getDictValue key entries with
    | some (.sint8 v) => castToFloat (v : Rat)
    | some (.sint16 v) => castToFloat (v : Rat)
    | some (.sint32 v) => castToFloat (v : Rat)
    | some (.sint64 v) => castToFloat (v : Rat)
    | some (.uint8 v) => castToFloat (v : Rat)
    | some (.uint16 v) => castToFloat (v : Rat)
    | some (.uint32 v) => castToFloat (v : Rat)
    | some (.uint64 v) => castToFloat (v : Rat)
    | some (.float32 v) => castToFloat v
    | some (.float64 v) => castToFloat v
    | _ => defaultValue
  | _ => defaultValue

/-- Embedding of `GetStringOption` (lines 206-222). -/
def GetStringOption (key : String) (options : Variant) (defaultValue : String := "") : String :=
  match options with
  | .dict entries =>
    match getDictValue key entries with
    | some (.string s) => s
    | _ => defaultValue
  | _ => defaultValue

/-- Embedding of `ApplyMinMax` (lines 224-249). -/
def ApplyMinMax (attr : MayaAttr) (compoundStructure : Variant) : MayaAttr :=
  let uiMin := GetScalarOption "uiMin" compoundStructure
  let uiMax := GetScalarOption "uiMax" compoundStructure
  if uiMin < uiMax then
    let uiSoftMin := GetScalarOption "uiSoftMin" compoundStructure
    let uiSoftMax := GetScalarOption "uiSoftMax" compoundStructure
    if uiSoftMin < uiSoftMax then
      attr.withProps { attr.props with
        min := some uiMin, max := some uiMax,
        softMin := some uiSoftMin, softMax := some uiSoftMax }
    else
      attr.withProps { attr.props with
        min := some uiMin, max := some uiMax,
        softMin := some uiMin, softMax := some uiMax }
  else
    attr


/-! ## The dispatch core -/

/-- One of the three children of a Vec3 or Euler attribute (lines 487-519 and
544-576): created under the parent name with a suffix and finalized as a
single `Float32` scalar. -/
def xyzChild (name suffix : String) (kind : AttrKind) (isInput isOutput : Bool) : MayaAttr :=
  SetupMayaAttribute (freshAttr (name ++ suffix) kind)
    .DT_Scalar "Float32" .AT_Single "Single Value" isInput isOutput

/-- The colour attribute of lines 457-471: `createColor`, then each of the
three children finalized as a single `Float32` scalar. -/
def colorAttr (name : String) (isInput isOutput : Bool) : MayaAttr :=
  (createColor name).withChildren
    ((createColor name).children.map fun childAttr =>
      SetupMayaAttribute childAttr .DT_Scalar "Float32" .AT_Single "Single Value"
        isInput isOutput)

/-- The scalar attribute of lines 400-425: the `scalarUnit` option selects a
unit attribute or a plain double, and the range decoration is applied. -/
def scalarAttr (name : String) (compoundStructure : Variant) : MayaAttr :=
  let scalarUnit := GetStringOption "scalarUnit" compoundStructure
  if scalarUnit = "time" then
    ApplyMinMax (freshAttr name (.unit .kTime)) compoundStructure
  else if scalarUnit = "angle" then
    ApplyMinMax (freshAttr name (.unit .kAngle)) compoundStructure
  else if scalarUnit = "distance" then
    ApplyMinMax (freshAttr name (.unit .kDistance)) compoundStructure
  else
    ApplyMinMax (freshAttr name (.numeric .kDouble)) compoundStructure

/-- The cases of the switch of `CreateMayaAttribute` (lines 266-717) that do
not expand a nested structure: every data type other than `DT_CompoundParam`,
and the `default` label of the `DT_CompoundParam` case (line 346). -/
def createLeafObject (name : String) (dataType : DataType) (dataTypeStr : String)
    (arrayType : ArrayType) (arrayTypeStr : String) (isInput isOutput : Bool)
    (compoundStructure : Variant) : Except Failure MObject :=
    match dataType with
    | .DT_CompoundParam => ThrowIncompatibleDataArrayTypes dataTypeStr arrayTypeStr
    | .DT_Boolean =>
      match arrayType with
      | .AT_Single | .AT_Array_Multi => .ok (some (freshAttr name (.numeric .kBoolean)))
      | _ => ThrowIncompatibleDataArrayTypes dataTypeStr arrayTypeStr
    | .DT_Integer =>
      match arrayType with
      | .AT_Single | .AT_Array_Multi =>
        .ok (some (ApplyMinMax (freshAttr name (.numeric .kInt)) compoundStructure))
      | .AT_Array_Native => .ok (some (freshAttr name (.typed .kIntArray)))
    | .DT_Scalar =>
      if arrayType = .AT_Array_Native then
        .ok (some (freshAttr name (.typed .kDoubleArray)))
      else
        .ok (some (scalarAttr name compoundStructure))
    | .DT_String =>
      match arrayType with
      | .AT_Single | .AT_Array_Multi => .ok (some (freshAttr name (.typed .kString)))
      | _ => ThrowIncompatibleDataArrayTypes dataTypeStr arrayTypeStr
    | .DT_Color =>
      match arrayType with
      | .AT_Single | .AT_Array_Multi => .ok (some (colorAttr name isInput isOutput))
      | _ => ThrowIncompatibleDataArrayTypes dataTypeStr arrayTypeStr
    | .DT_Vec3 =>
      match arrayType with
      | .AT_Single | .AT_Array_Multi =>
        .ok (some (createNumeric3 name
          (xyzChild name "X" (.numeric .kDouble) isInput isOutput)
          (xyzChild name "Y" (.numeric .kDouble) isInput isOutput)
          (xyzChild name "Z" (.numeric .kDouble) isInput isOutput)))
      | .AT_Array_Native => .ok (some (freshAttr name (.typed .kVectorArray)))
    | .DT_Euler =>
      match arrayType with
      | .AT_Single | .AT_Array_Multi =>
        .ok (some (createNumeric3 name
          (xyzChild name "X" (.unit .kAngle) isInput isOutput)
          (xyzChild name "Y" (.unit .kAngle) isInput isOutput)
          (xyzChild name "Z" (.unit .kAngle) isInput isOutput)))
      | _ => ThrowIncompatibleDataArrayTypes dataTypeStr arrayTypeStr
    | .DT_Mat44 =>
      match arrayType with
      | .AT_Single | .AT_Array_Multi => .ok (some (freshAttr name .matrix))
      | _ => ThrowIncompatibleDataArrayTypes dataTypeStr arrayTypeStr
    | .DT_PolygonMesh =>
      match arrayType with
      | .AT_Single | .AT_Array_Multi => .ok (some (freshAttr name (.typed .kMesh)))
      | _ => ThrowIncompatibleDataArrayTypes dataTypeStr arrayTypeStr
    | .DT_Lines =>
      match arrayType with
      | .AT_Single | .AT_Array_Multi => .ok (some (freshAttr name (.typed .kNurbsCurve)))
      | _ => ThrowIncompatibleDataArrayTypes dataTypeStr arrayTypeStr
    | .DT_Curves =>
      match arrayType with
      | .AT_Array_Multi => .ok (some (freshAttr name (.typed .kNurbsCurve)))
      | .AT_Single => .error (.exception
          "DataType 'Curves' is only compatible with Array type, 'Curve' should be used instead")
      | _ => ThrowIncompatibleDataArrayTypes dataTypeStr arrayTypeStr
    | .DT_Curve =>
      match arrayType with
      | .AT_Single => .ok (some (freshAttr name (.typed .kNurbsCurve)))
      | .AT_Array_Multi => .error (.exception
          "DataType 'Curve' is not compatible with Array type, 'Curves' should be used instead")
      | _ => ThrowIncompatibleDataArrayTypes dataTypeStr arrayTypeStr
    | .DT_KeyframeTrack =>
      match arrayType with
      | .AT_Single | .AT_Array_Multi => .ok (some (freshAttr name .message))
      | _ => ThrowIncompatibleDataArrayTypes dataTypeStr arrayTypeStr
    | .DT_SpliceMayaData =>
      match arrayType with
      | .AT_Single | .AT_Array_Multi => .ok (some (freshAttr name (.typed .spliceMayaData)))
      | _ => ThrowIncompatibleDataArrayTypes dataTypeStr arrayTypeStr

/-- The end of `CreateMayaAttribute` (lines 719-731): the assertion that
`obj` is not null, then the finalize step on it. -/
def finishAttribute (obj : MObject) (dataType : DataType) (dataTypeStr : String)
    (arrayType : ArrayType) (arrayTypeStr : String) (isInput isOutput : Bool) :
    Except Failure MayaAttr :=
  match obj with
  | none => .error .assertFailed
  | some attr =>
    .ok (SetupMayaAttribute attr dataType dataTypeStr arrayType arrayTypeStr isInput isOutput)

mutual

/-- Embedding of `CreateMayaAttribute` (lines 251-732): the switch computes
`obj` or throws, then the assertion and the finalize step run. The
`DT_CompoundParam` case with `AT_Single` or `AT_Array_Multi` (lines 272-344)
is written out here; the other cases are `createLeafObject`. -/
def CreateMayaAttribute (name : String) (dataType : DataType) (dataTypeStr : String)
    (arrayType : ArrayType) (arrayTypeStr : String) (isInput isOutput : Bool)
    (compoundStructure : Variant) : Except Failure MayaAttr :=
  if dataType = .DT_CompoundParam ∧ arrayType ≠ .AT_Array_Native then
    match compoundStructure with
    | .null => .error (.exception
        "CompoundParam used for a maya attribute but no compound structure provided.")
    | .dict entries =>
      match compoundLoop name isInput isOutput entries [] none with
      | .error e => .error e
      | .ok (_, obj) =>
        finishAttribute obj dataType dataTypeStr arrayType arrayTypeStr isInput isOutput
    | _ => .error (.exception
        "CompoundParam used for a maya attribute but compound structure does not contain a dictionary.")
  else
    match createLeafObject name dataType dataTypeStr arrayType arrayTypeStr isInput isOutput
        compoundStructure with
    | .error e => .error e
    | .ok obj =>
      finishAttribute obj dataType dataTypeStr arrayType arrayTypeStr isInput isOutput

/-- The loop over the dictionary entries of the compound structure (lines
285-342), carrying `childAttrs` and `obj`. A null entry is skipped; after any
other entry the compound is created anew and receives every child collected
so far. -/
def compoundLoop (name : String) (isInput isOutput : Bool) :
    List (String × Variant) → List MayaAttr → MObject →
      Except Failure (List MayaAttr × MObject)
  | [], childAttrs, obj => .ok (childAttrs, obj)
  | (childName, value) :: rest, childAttrs, obj =>
    match value with
    | .null => compoundLoop name isInput isOutput rest childAttrs obj
    | .dict entries =>
      match getDictValue "dataType" entries with
      | some (.string childDataTypeStr) =>
        let childArrayTypeStr :=
          if hasBracket childDataTypeStr then "Array (Multi)" else "Single Value"
        match ParseDataType childDataTypeStr with
        | .error e => .error e
        | .ok childDataType =>
          match ParseArrayType childArrayTypeStr with
          | .error e => .error e
          | .ok childArrayType =>
            match CreateMayaAttribute childName childDataType childDataTypeStr
                childArrayType childArrayTypeStr isInput isOutput (.dict entries) with
            | .error e => .error e
            | .ok child =>
              compoundLoop name isInput isOutput rest (childAttrs ++ [child])
                (some (createCompound name (childAttrs ++ [child])))
      | _ =>
        match CreateMayaAttribute childName .DT_CompoundParam "CompoundParam"
            .AT_Single "Single Value" isInput isOutput (.dict entries) with
        | .error e => .error e
        | .ok child =>
          compoundLoop name isInput isOutput rest (childAttrs ++ [child])
            (some (createCompound name (childAttrs ++ [child])))
    | _ =>
      compoundLoop name isInput isOutput rest childAttrs
        (some (createCompound name childAttrs))

end


/-! ## Specification predicates -/

/-- The legal set of the dispatch table: the cardinalities under which each
data type may be requested. -/
def LegalPair : DataType → ArrayType → Bool
  | .DT_Integer, _ => true
  | .DT_Scalar, _ => true
  | .DT_Vec3, _ => true
  | .DT_Curve, arrayType => decide (arrayType = .AT_Single)
  | .DT_Curves, arrayType => decide (arrayType = .AT_Array_Multi)
  | _, arrayType => decide (arrayType = .AT_Single ∨ arrayType = .AT_Array_Multi)

/-- The four range bounds of an attribute are set to the hard range
`[lo, hi]` and the soft range `[slo, shi]`. -/
def HasBounds (attr : MayaAttr) (lo hi slo shi : FloatValue) : Prop :=
  attr.props.min = some lo ∧ attr.props.max = some hi ∧
  attr.props.softMin = some slo ∧ attr.props.softMax = some shi

/-- The test `Variant::isNull`. -/
def Variant.isNull : Variant → Bool
  | .null => true
  | _ => false

/-- The cardinality label that the compound loop picks for a child type
string (lines 301-304). -/
def inferredArrayTypeStr (childDataTypeStr : String) : String :=
  if hasBracket childDataTypeStr then "Array (Multi)" else "Single Value"

/-- The cardinality that the label of `inferredArrayTypeStr` stands for:
Array-Multi if the type string contains a bracket, Single otherwise. -/
def inferredArrayType (childDataTypeStr : String) : ArrayType :=
  if hasBracket childDataTypeStr then .AT_Array_Multi else .AT_Single

/-- The entry `e` of a nested structure is a dictionary carrying a string
`dataType` field `s` that parses, and `child` is the attribute built for it:
under the entry's key, with the parsed DataType and the cardinality inferred
from `s`, the entry itself being the child's nested structure. -/
def BuildsTyped (isInput isOutput : Bool) (e : String × Variant) (child : MayaAttr) : Prop :=
  ∃ entries s dataType, e.2 = .dict entries ∧
    getDictValue "dataType" entries = some (.string s) ∧
    ParseDataType s = .ok dataType ∧
    CreateMayaAttribute e.1 dataType s (inferredArrayType s) (inferredArrayTypeStr s)
      isInput isOutput e.2 = .ok child

/-- Sample nested structure: two typed entries, a single Scalar and an
Integer array. -/
def typedEntries : List (String × Variant) :=
  [("a", .dict [("dataType", .string "Scalar")]),
   ("b", .dict [("dataType", .string "Integer[]")])]

/-- Sample nested structure: one entry typed CompoundParam which itself holds
an entry of an unknown type. -/
def nestedUnknownEntries : List (String × Variant) :=
  [("x", .dict [("dataType", .string "CompoundParam"),
                ("y", .dict [("dataType", .string "Bogus")])])]

/-- The data types of the first case group of the switch of
`SetupMayaAttribute` (lines 144-148). -/
def isComplexType : DataType → Bool
  | .DT_PolygonMesh | .DT_Curves | .DT_Curve | .DT_Lines | .DT_SpliceMayaData => true
  | _ => false

/-- None of the four range setters was called on the attribute. -/
def NoBounds (attr : MayaAttr) : Prop :=
  attr.props.min = none ∧ attr.props.max = none ∧
  attr.props.softMin = none ∧ attr.props.softMax = none

/-- Sample options: a degenerate hard range together with a valid soft
range. -/
def degenerateRangeOptions : Variant :=
  .dict [("uiMin", .sint32 10), ("uiMax", .sint32 5),
         ("uiSoftMin", .sint32 2), ("uiSoftMax", .sint32 8)]

/-- Sample options: an angle unit hint. -/
def angleOptions : Variant :=
  .dict [("scalarUnit", .string "angle")]

/-- The number stored in an option value, as the chain of type tests of
`GetScalarOption` (lines 192-201) finds it, before the conversion to `float`;
`none` for a value that is not numeric. -/
def Variant.toScalar? : Variant → Option Rat
  | .sint8 v => some (v : Rat)
  | .sint16 v => some (v : Rat)
  | .sint32 v => some (v : Rat)
  | .sint64 v => some (v : Rat)
  | .uint8 v => some (v : Rat)
  | .uint16 v => some (v : Rat)
  | .uint32 v => some (v : Rat)
  | .uint64 v => some (v : Rat)
  | .float32 v => some v
  | .float64 v => some v
  | _ => none

/-- Sample options: only an upper limit. -/
def maxOnlyOptions : List (String × Variant) :=
  [("uiMax", .float64 7)]

/-- Sample options: only an upper limit, a positive double below the least
positive float. -/
def tinyMaxOptions : List (String × Variant) :=
  [("uiMax", .float64 (1 / 10 ^ 60))]

/-- Sample options: two adjacent integers above `2 ^ 24`, which no float
tells apart. -/
def adjacentIntegerOptions : Variant :=
  .dict [("uiMin", .sint32 16777216), ("uiMax", .sint32 16777217)]

/-- The child attribute that the loop body builds for an entry whose value is
the dictionary `entries` (lines 295-335): a typed child when the dictionary
carries a string `dataType`, a nested CompoundParam/Single otherwise. -/
def buildChild (isInput isOutput : Bool) (childName : String)
    (entries : List (String × Variant)) : Except Failure MayaAttr :=
  match getDictValue "dataType" entries with
  | some (.string childDataTypeStr) =>
    match ParseDataType childDataTypeStr with
    | .error e => .error e
    | .ok childDataType =>
      match ParseArrayType (inferredArrayTypeStr childDataTypeStr) with
      | .error e => .error e
      | .ok childArrayType =>
        CreateMayaAttribute childName childDataType childDataTypeStr childArrayType
          (inferredArrayTypeStr childDataTypeStr) isInput isOutput (.dict entries)
  | _ =>
    CreateMayaAttribute childName .DT_CompoundParam "CompoundParam" .AT_Single
      "Single Value" isInput isOutput (.dict entries)

/-- Reference for the build-once reading of the compound expansion: all
children are built first, in iteration order, into one list. Entries whose
value is not a dictionary contribute nothing. -/
def collectChildren (isInput isOutput : Bool) :
    List (String × Variant) → Except Failure (List MayaAttr)
  | [] => .ok []
  | (childName, value) :: rest =>
    match value with
    | .dict entries =>
      match buildChild isInput isOutput childName entries with
      | .error e => .error e
      | .ok child =>
        match collectChildren isInput isOutput rest with
        | .error e => .error e
        | .ok childAttrs => .ok (child :: childAttrs)
    | _ => collectChildren isInput isOutput rest

/-- Reference for the build-once reading of the compound expansion: the
compound is created a single time, after the loop, from the full list of
collected children. -/
def createCompoundOnce (name : String) (isInput isOutput : Bool)
    (entries : List (String × Variant)) : Except Failure MayaAttr :=
  match collectChildren isInput isOutput entries with
  | .error e => .error e
  | .ok childAttrs => .ok (createCompound name childAttrs)

/-- The nested structure `entries` holds a failing request on a path that the
expansion follows: an entry of `entries` whose value is a dictionary and whose
`dataType` string is rejected by `ParseDataType`, or is illegal for the
inferred cardinality, or which is built as a nested compound (typed
CompoundParam, or without a string `dataType`) and either fails to expand or
holds such a failing request itself. -/
inductive HasFailingEntry (isInput isOutput : Bool) : List (String × Variant) → Prop where
  | rejected {entries : List (String × Variant)} {k : String}
      {sub : List (String × Variant)} {s : String} {e : Failure} :
      (k, Variant.dict sub) ∈ entries →
      getDictValue "dataType" sub = some (.string s) →
      ParseDataType s = .error e →
      HasFailingEntry isInput isOutput entries
  | illegal {entries : List (String × Variant)} {k : String}
      {sub : List (String × Variant)} {s : String} {dt : DataType} :
      (k, Variant.dict sub) ∈ entries →
      getDictValue "dataType" sub = some (.string s) →
      ParseDataType s = .ok dt →
      LegalPair dt (inferredArrayType s) = false →
      HasFailingEntry isInput isOutput entries
  | typedExpansionFails {entries : List (String × Variant)} {k : String}
      {sub : List (String × Variant)} {s : String} {e : Failure} :
      (k, Variant.dict sub) ∈ entries →
      getDictValue "dataType" sub = some (.string s) →
      ParseDataType s = .ok .DT_CompoundParam →
      CreateMayaAttribute k .DT_CompoundParam s (inferredArrayType s)
        (inferredArrayTypeStr s) isInput isOutput (.dict sub) = .error e →
      HasFailingEntry isInput isOutput entries
  | untypedExpansionFails {entries : List (String × Variant)} {k : String}
      {sub : List (String × Variant)} {e : Failure} :
      (k, Variant.dict sub) ∈ entries →
      (∀ s, getDictValue "dataType" sub ≠ some (.string s)) →
      CreateMayaAttribute k .DT_CompoundParam "CompoundParam" .AT_Single "Single Value"
        isInput isOutput (.dict sub) = .error e →
      HasFailingEntry isInput isOutput entries
  | nestedTyped {entries : List (String × Variant)} {k : String}
      {sub : List (String × Variant)} {s : String} :
      (k, Variant.dict sub) ∈ entries →
      getDictValue "dataType" sub = some (.string s) →
      ParseDataType s = .ok .DT_CompoundParam →
      HasFailingEntry isInput isOutput sub →
      HasFailingEntry isInput isOutput entries
  | nestedUntyped {entries : List (String × Variant)} {k : String}
      {sub : List (String × Variant)} :
      (k, Variant.dict sub) ∈ entries →
      (∀ s, getDictValue "dataType" sub ≠ some (.string s)) →
      HasFailingEntry isInput isOutput sub →
      HasFailingEntry isInput isOutput entries

/-- Sample nested structure: a raw string stored under a key. -/
def rawStringEntries : List (String × Variant) :=
  [("a", .string "Scalar")]

/-- Sample nested structure: an untyped nested dictionary holding one typed
entry. -/
def untypedNestedEntries : List (String × Variant) :=
  [("grp", .dict [("x", .dict [("dataType", .string "Scalar")])])]

/-- Sample nested structure: a Scalar entry whose dictionary also holds a
nested entry of an unknown type. -/
def leafWithNestedEntries : List (String × Variant) :=
  [("x", .dict [("dataType", .string "Scalar"),
                ("y", .dict [("dataType", .string "Bogus")])])]

/-- Sample nested structure: a nested compound, two levels down, holding a
Curve requested as an array. -/
def deepIllegalEntries : List (String × Variant) :=
  [("ok", .dict [("dataType", .string "Scalar")]),
   ("outer", .dict [("inner", .dict [("c", .dict [("dataType", .string "Curve[]")])])])]

/-- The attribute kinds that the builder creates for the data types of
`isComplexType`, and for no other data type: mesh, NURBS curve and
SpliceMayaData typed attributes. -/
def complexKind : AttrKind → Bool
  | .typed .kMesh => true
  | .typed .kNurbsCurve => true
  | .typed .spliceMayaData => true
  | _ => false

/-- The direction and persistence flags that the finalize step leaves on an
attribute of kind `kind`: readable = isOutput, writable = isInput, and
storable and keyable false for a complex kind, isInput and not isOutput
otherwise. -/
def finalizedProps (isInput isOutput : Bool) (kind : AttrKind) (props : AttrProps) : Bool :=
  decide (props.readable = some isOutput) && decide (props.writable = some isInput) &&
  decide (props.storable = some (if complexKind kind then false else (isInput && !isOutput))) &&
  decide (props.keyable = some (if complexKind kind then false else (isInput && !isOutput)))

mutual

/-- Every attribute of the tree rooted at the given attribute carries the
flags of `finalizedProps`. -/
def finalizedTree (isInput isOutput : Bool) : MayaAttr → Bool
  | .mk _ kind props children =>
    finalizedProps isInput isOutput kind props && finalizedAll isInput isOutput children

/-- Every tree of the list satisfies `finalizedTree`. -/
def finalizedAll (isInput isOutput : Bool) : List MayaAttr → Bool
  | [] => true
  | child :: rest => finalizedTree isInput isOutput child && finalizedAll isInput isOutput rest

end

/-- Sample nested structure: a Vec3, a Color, a mesh and an untyped nested
dictionary with a Euler array and a Curve. -/
def mixedEntries : List (String × Variant) :=
  [("pos", .dict [("dataType", .string "Vec3")]),
   ("tint", .dict [("dataType", .string "Color")]),
   ("geo", .dict [("dataType", .string "PolygonMesh")]),
   ("sub", .dict [("rot", .dict [("dataType", .string "Euler[]")]),
                  ("path", .dict [("dataType", .string "Curve")])])]

/-- The alias table of the type classifier: each recognised type name with
the DataType it stands for (floating types are Scalar, integer types of every
width and sign are Integer, every other name stands for the like-named
DataType). -/
def typeAliases : List (String × DataType) :=
  [("Boolean", .DT_Boolean),
   ("Scalar", .DT_Scalar), ("Float32", .DT_Scalar), ("Float64", .DT_Scalar),
   ("Integer", .DT_Integer), ("SInt8", .DT_Integer), ("SInt16", .DT_Integer),
   ("SInt32", .DT_Integer), ("SInt64", .DT_Integer), ("Byte", .DT_Integer),
   ("UInt8", .DT_Integer), ("UInt16", .DT_Integer), ("Count", .DT_Integer),
   ("Index", .DT_Integer), ("Size", .DT_Integer), ("UInt32", .DT_Integer),
   ("DataSize", .DT_Integer), ("UInt64", .DT_Integer),
   ("String", .DT_String), ("Vec3", .DT_Vec3), ("Euler", .DT_Euler),
   ("Mat44", .DT_Mat44), ("Color", .DT_Color), ("PolygonMesh", .DT_PolygonMesh),
   ("Curves", .DT_Curves), ("Curve", .DT_Curve), ("Lines", .DT_Lines),
   ("KeyframeTrack", .DT_KeyframeTrack), ("SpliceMayaData", .DT_SpliceMayaData),
   ("CompoundParam", .DT_CompoundParam)]

/-! ## Basic facts -/

theorem mentions_of_eq {msg sub : String} (pre post : String)
    (h : msg = pre ++ sub ++ post) : Mentions msg sub := by
  unfold Mentions
  refine ⟨pre.data, post.data, ?_⟩
  rw [h]
  simp [String.data_append]

theorem incompatibleMessage_getLast (d a : String) :
    (incompatibleMessage d a).data.getLast? = some '\'' := by
  unfold incompatibleMessage
  rw [String.data_append]
  exact List.getLast?_concat _

theorem createLeafObject_illegal (name : String) (dataType : DataType) (dataTypeStr : String)
    (arrayType : ArrayType) (arrayTypeStr : String) (isInput isOutput : Bool)
    (compoundStructure : Variant) (h : LegalPair dataType arrayType = false) :
    ∃ msg, createLeafObject name dataType dataTypeStr arrayType arrayTypeStr isInput isOutput
      compoundStructure = .error (.exception msg) := by
  cases dataType <;> cases arrayType <;> simp [LegalPair] at h <;>
    exact ⟨_, rfl⟩

theorem invalidDataTypeMessage_silent (s : String)
    (h : s = "Execute" ∨ s = "ManipHandle" ∨ s = "DrawingHandle") :
    invalidDataTypeMessage s = "" := by
  rcases h with h | h | h <;> subst h <;> rfl

theorem invalidDataTypeMessage_loud (s : String)
    (h : ¬ (s = "Execute" ∨ s = "ManipHandle" ∨ s = "DrawingHandle")) :
    invalidDataTypeMessage s = "Unhandled DataType '" ++ s ++ "'" := by
  unfold invalidDataTypeMessage
  rw [if_pos]
  simp only [not_or] at h
  exact h

theorem quoted_ne_empty (pre s : String) : pre ++ s ++ "'" ≠ "" := by
  intro h
  have h2 := congrArg (fun x : String => x.data.getLast?) h
  simp only [String.data_append] at h2
  rw [List.getLast?_concat] at h2
  revert h2
  decide

theorem ParseDataType_of_unrecognised (s : String)
    (h : splitFirst s ∉ recognisedTypeNames) :
    ParseDataType s = .error (.exception (invalidDataTypeMessage s)) := by
  simp only [recognisedTypeNames, List.mem_cons, List.mem_singleton, List.not_mem_nil,
    not_or, or_false] at h
  have hn : typeOfName (splitFirst s) = none := by
    unfold typeOfName
    simp only [h, if_false]
  unfold ParseDataType
  simp only [hn, ThrowInvalidDataType]

theorem takeWhile_append_stop (p : Char → Bool) (c : Char) (hc : p c = false) :
    ∀ (l r : List Char), (∀ x ∈ l, p x = true) → (l ++ c :: r).takeWhile p = l
  | [], r, _ => by simp [List.takeWhile, hc]
  | x :: l, r, h => by
    have hx : p x = true := h x (List.mem_cons_self x l)
    have hl : ∀ y ∈ l, p y = true := fun y hy => h y (List.mem_cons_of_mem x hy)
    simp [List.takeWhile, hx, takeWhile_append_stop p c hc l r hl]

theorem takeWhile_all (p : Char → Bool) :
    ∀ (l : List Char), (∀ x ∈ l, p x = true) → l.takeWhile p = l
  | [], _ => rfl
  | x :: l, h => by
    have hx : p x = true := h x (List.mem_cons_self x l)
    have hl : ∀ y ∈ l, p y = true := fun y hy => h y (List.mem_cons_of_mem x hy)
    simp [List.takeWhile, hx, takeWhile_all p l hl]

theorem no_bracket_chars (s : String) (h : hasBracket s = false) :
    ∀ x ∈ s.data, (x != '[') = true := by
  intro x hx
  simp only [hasBracket, List.contains_eq_any_beq, List.any_eq_false, beq_iff_eq] at h
  simp only [bne_iff_ne, ne_eq]
  intro hxe
  exact h x hx hxe.symm

theorem splitFirst_of_no_bracket (s : String) (h : hasBracket s = false) :
    splitFirst s = s := by
  unfold splitFirst
  rw [takeWhile_all _ _ (no_bracket_chars s h)]

theorem splitFirst_append_bracket (s t : String) (h : hasBracket s = false) :
    splitFirst (s ++ "[" ++ t) = s := by
  unfold splitFirst
  simp only [String.data_append]
  rw [List.append_assoc, List.singleton_append,
    takeWhile_append_stop _ '[' (by decide) _ _ (no_bracket_chars s h)]

theorem ParseDataType_ok_congr (x y : String) (h : splitFirst x = splitFirst y)
    (dt : DataType) : ParseDataType x = .ok dt ↔ ParseDataType y = .ok dt := by
  unfold ParseDataType
  dsimp only
  rw [h]
  cases typeOfName (splitFirst y) with
  | some d => exact Iff.rfl
  | none => exact ⟨fun h1 => (by cases h1), fun h1 => (by cases h1)⟩

theorem props_withProps (attr : MayaAttr) (p : AttrProps) : (attr.withProps p).props = p := by
  cases attr
  rfl

theorem ApplyMinMax_bounds (attr : MayaAttr) (options : Variant)
    (h : GetScalarOption "uiMin" options < GetScalarOption "uiMax" options) :
    HasBounds (ApplyMinMax attr options)
      (GetScalarOption "uiMin" options) (GetScalarOption "uiMax" options)
      (if GetScalarOption "uiSoftMin" options < GetScalarOption "uiSoftMax" options
        then GetScalarOption "uiSoftMin" options else GetScalarOption "uiMin" options)
      (if GetScalarOption "uiSoftMin" options < GetScalarOption "uiSoftMax" options
        then GetScalarOption "uiSoftMax" options else GetScalarOption "uiMax" options) := by
  unfold ApplyMinMax HasBounds
  dsimp only
  rw [if_pos h]
  by_cases hs : GetScalarOption "uiSoftMin" options < GetScalarOption "uiSoftMax" options
  · simp only [if_pos hs, props_withProps, and_self]
  · simp only [if_neg hs, props_withProps, and_self]

theorem ParseArrayType_inferred (s : String) :
    ParseArrayType (inferredArrayTypeStr s) = .ok (inferredArrayType s) := by
  unfold inferredArrayTypeStr inferredArrayType
  cases hasBracket s <;> rfl

@[simp] theorem name_withProps (attr : MayaAttr) (p : AttrProps) :
    (attr.withProps p).name = attr.name := by
  cases attr
  rfl

@[simp] theorem name_withChildren (attr : MayaAttr) (cs : List MayaAttr) :
    (attr.withChildren cs).name = attr.name := by
  cases attr
  rfl

@[simp] theorem name_freshAttr (name : String) (kind : AttrKind) :
    (freshAttr name kind).name = name := rfl

@[simp] theorem name_createCompound (name : String) (cs : List MayaAttr) :
    (createCompound name cs).name = name := rfl

@[simp] theorem name_createNumeric3 (name : String) (x y z : MayaAttr) :
    (createNumeric3 name x y z).name = name := rfl

@[simp] theorem name_SetupMayaAttribute (attr : MayaAttr) (dataType : DataType)
    (dataTypeStr : String) (arrayType : ArrayType) (arrayTypeStr : String)
    (isInput isOutput : Bool) :
    (SetupMayaAttribute attr dataType dataTypeStr arrayType arrayTypeStr
      isInput isOutput).name = attr.name := by
  unfold SetupMayaAttribute
  exact name_withProps _ _

@[simp] theorem name_ApplyMinMax (attr : MayaAttr) (options : Variant) :
    (ApplyMinMax attr options).name = attr.name := by
  unfold ApplyMinMax
  dsimp only
  split_ifs <;> simp

@[simp] theorem name_scalarAttr (name : String) (options : Variant) :
    (scalarAttr name options).name = name := by
  unfold scalarAttr
  dsimp only
  split_ifs <;> simp

@[simp] theorem name_colorAttr (name : String) (isInput isOutput : Bool) :
    (colorAttr name isInput isOutput).name = name := by
  unfold colorAttr
  rw [name_withChildren]
  rfl

theorem createLeafObject_name (name : String) (dataType : DataType) (dataTypeStr : String)
    (arrayType : ArrayType) (arrayTypeStr : String) (isInput isOutput : Bool)
    (compoundStructure : Variant) (attr : MayaAttr)
    (h : createLeafObject name dataType dataTypeStr arrayType arrayTypeStr isInput isOutput
      compoundStructure = .ok (some attr)) : attr.name = name := by
  cases dataType <;> cases arrayType <;>
    simp [createLeafObject, ThrowIncompatibleDataArrayTypes] at h <;>
    subst h <;> simp

theorem createLeafObject_legal (name : String) (dataType : DataType) (dataTypeStr : String)
    (arrayType : ArrayType) (arrayTypeStr : String) (isInput isOutput : Bool)
    (compoundStructure : Variant) (hd : dataType ≠ .DT_CompoundParam)
    (h : LegalPair dataType arrayType = true) :
    ∃ attr, createLeafObject name dataType dataTypeStr arrayType arrayTypeStr isInput isOutput
      compoundStructure = .ok (some attr) := by
  cases dataType <;> cases arrayType <;> simp [LegalPair] at h hd <;>
    exact ⟨_, rfl⟩

theorem compoundLoop_obj_shape (name : String) (isInput isOutput : Bool) :
    ∀ (entries : List (String × Variant)) (acc : List MayaAttr) (obj : MObject)
      (cs : List MayaAttr) (res : MObject),
      compoundLoop name isInput isOutput entries acc obj = .ok (cs, res) →
      res = obj ∨ ∃ l, res = some (createCompound name l)
  | [], acc, obj, cs, res, h => by
    simp only [compoundLoop, Except.ok.injEq, Prod.mk.injEq] at h
    exact Or.inl h.2.symm
  | (k, v) :: rest, acc, obj, cs, res, h => by
    cases v
    case null =>
      rw [compoundLoop.eq_2] at h
      exact compoundLoop_obj_shape name isInput isOutput rest acc obj cs res h
    case dict es =>
      rw [compoundLoop.eq_3] at h
      split at h
      · dsimp only at h
        split at h
        · cases h
        · split at h
          · cases h
          · split at h
            · cases h
            · rcases compoundLoop_obj_shape name isInput isOutput rest _ _ cs res h with h1 | h1
              · exact Or.inr ⟨_, h1⟩
              · exact Or.inr h1
      · split at h
        · cases h
        · rcases compoundLoop_obj_shape name isInput isOutput rest _ _ cs res h with h1 | h1
          · exact Or.inr ⟨_, h1⟩
          · exact Or.inr h1
    all_goals
      rw [compoundLoop.eq_4 _ _ _ _ _ _ _ _ (fun h0 => by cases h0)
        (fun _ h0 => by cases h0)] at h
      rcases compoundLoop_obj_shape name isInput isOutput rest _ _ cs res h with h1 | h1
      · exact Or.inr ⟨_, h1⟩
      · exact Or.inr h1

theorem CreateMayaAttribute_name (name : String) (dataType : DataType) (dataTypeStr : String)
    (arrayType : ArrayType) (arrayTypeStr : String) (isInput isOutput : Bool)
    (compoundStructure : Variant) (a : MayaAttr)
    (h : CreateMayaAttribute name dataType dataTypeStr arrayType arrayTypeStr isInput isOutput
      compoundStructure = .ok a) : a.name = name := by
  rw [CreateMayaAttribute.eq_def] at h
  split at h
  · split at h
    · cases h
    · split at h
      · cases h
      · rename_i l obj hloop
        rcases compoundLoop_obj_shape _ _ _ _ _ _ _ _ hloop with h1 | ⟨l2, h1⟩
        · subst h1
          cases h
        · subst h1
          simp only [finishAttribute, Except.ok.injEq] at h
          subst h
          simp
    · cases h
  · split at h
    · cases h
    · rename_i obj hleaf
      cases obj with
      | none => cases h
      | some attr =>
        simp only [finishAttribute, Except.ok.injEq] at h
        subst h
        rw [name_SetupMayaAttribute]
        exact createLeafObject_name _ _ _ _ _ _ _ _ _ hleaf

theorem compoundLoop_typed (name : String) (isInput isOutput : Bool) :
    ∀ (entries : List (String × Variant)) (acc : List MayaAttr) (obj : MObject),
      (∀ e ∈ entries, e.2.isNull = false → ∃ child, BuildsTyped isInput isOutput e child) →
      ∃ cs, List.Forall₂ (BuildsTyped isInput isOutput)
          (entries.filter (fun e => !e.2.isNull)) cs ∧
        compoundLoop name isInput isOutput entries acc obj =
          .ok (acc ++ cs,
            if (entries.filter (fun e => !e.2.isNull)).isEmpty then obj
            else some (createCompound name (acc ++ cs)))
  | [], acc, obj, _ => ⟨[], List.Forall₂.nil, by simp [compoundLoop]⟩
  | (k, v) :: rest, acc, obj, hall => by
    have hrest : ∀ e ∈ rest, e.2.isNull = false →
        ∃ child, BuildsTyped isInput isOutput e child :=
      fun e he => hall e (List.mem_cons_of_mem _ he)
    cases v
    case null =>
      obtain ⟨cs, hcs, hloop⟩ := compoundLoop_typed name isInput isOutput rest acc obj hrest
      have hf : ((k, Variant.null) :: rest).filter (fun e => !e.2.isNull)
          = rest.filter (fun e => !e.2.isNull) :=
        List.filter_cons_of_neg (by simp [Variant.isNull])
      rw [hf]
      exact ⟨cs, hcs, by rw [compoundLoop.eq_2, hloop]⟩
    case dict es =>
      obtain ⟨child, es2, s, dt, heq, hget, hparse, hcreate⟩ :=
        hall (k, .dict es) (List.mem_cons_self _ _) rfl
      dsimp only at heq hcreate
      cases heq
      obtain ⟨cs, hcs, hloop⟩ := compoundLoop_typed name isInput isOutput rest
        (acc ++ [child]) (some (createCompound name (acc ++ [child]))) hrest
      have hf : ((k, Variant.dict es) :: rest).filter (fun e => !e.2.isNull)
          = (k, Variant.dict es) :: rest.filter (fun e => !e.2.isNull) :=
        List.filter_cons_of_pos (by simp [Variant.isNull])
      rw [hf]
      refine ⟨child :: cs, ?_, ?_⟩
      · exact List.Forall₂.cons ⟨es, s, dt, rfl, hget, hparse, hcreate⟩ hcs
      · have hat := ParseArrayType_inferred s
        unfold inferredArrayTypeStr at hat hcreate
        rw [compoundLoop.eq_3, hget]
        dsimp only
        rw [hparse]
        dsimp only
        rw [hat]
        dsimp only
        rw [hcreate]
        dsimp only
        rw [hloop]
        by_cases hemp : (rest.filter (fun e => !e.2.isNull)).isEmpty = true
        · have hnil : rest.filter (fun e => !e.2.isNull) = [] := List.isEmpty_iff.mp hemp
          rw [hnil] at hcs
          cases hcs
          simp
        · simp [hemp]
    all_goals
      obtain ⟨child, es2, s, dt, heq, _⟩ := hall (k, _) (List.mem_cons_self _ _) rfl
      cases heq

@[simp] theorem kind_withProps (attr : MayaAttr) (p : AttrProps) :
    (attr.withProps p).kind = attr.kind := by
  cases attr
  rfl

@[simp] theorem children_withProps (attr : MayaAttr) (p : AttrProps) :
    (attr.withProps p).children = attr.children := by
  cases attr
  rfl

theorem SetupMayaAttribute_array (attr : MayaAttr) (dataType : DataType)
    (dataTypeStr : String) (arrayType : ArrayType) (arrayTypeStr : String)
    (isInput isOutput : Bool) :
    (SetupMayaAttribute attr dataType dataTypeStr arrayType arrayTypeStr
      isInput isOutput).props.array = some (decide (arrayType = .AT_Array_Multi)) := by
  unfold SetupMayaAttribute
  rw [props_withProps]
  cases arrayType <;> rfl

theorem finishAttribute_ok (obj : MObject) (dataType : DataType) (dataTypeStr : String)
    (arrayType : ArrayType) (arrayTypeStr : String) (isInput isOutput : Bool) (a : MayaAttr)
    (h : finishAttribute obj dataType dataTypeStr arrayType arrayTypeStr isInput isOutput
      = .ok a) :
    ∃ attr, obj = some attr ∧
      a = SetupMayaAttribute attr dataType dataTypeStr arrayType arrayTypeStr
        isInput isOutput := by
  cases obj with
  | none => cases h
  | some attr =>
    simp only [finishAttribute, Except.ok.injEq] at h
    exact ⟨attr, rfl, h.symm⟩

theorem CreateMayaAttribute_ok_setup (name : String) (dataType : DataType)
    (dataTypeStr : String) (arrayType : ArrayType) (arrayTypeStr : String)
    (isInput isOutput : Bool) (compoundStructure : Variant) (a : MayaAttr)
    (h : CreateMayaAttribute name dataType dataTypeStr arrayType arrayTypeStr isInput isOutput
      compoundStructure = .ok a) :
    ∃ attr, a = SetupMayaAttribute attr dataType dataTypeStr arrayType arrayTypeStr
      isInput isOutput := by
  rw [CreateMayaAttribute.eq_def] at h
  split at h
  · split at h
    · cases h
    · split at h
      · cases h
      · obtain ⟨attr, _, ha⟩ := finishAttribute_ok _ _ _ _ _ _ _ _ h
        exact ⟨attr, ha⟩
    · cases h
  · split at h
    · cases h
    · obtain ⟨attr, _, ha⟩ := finishAttribute_ok _ _ _ _ _ _ _ _ h
      exact ⟨attr, ha⟩

theorem CreateMayaAttribute_array (name : String) (dataType : DataType)
    (dataTypeStr : String) (arrayType : ArrayType) (arrayTypeStr : String)
    (isInput isOutput : Bool) (compoundStructure : Variant) (a : MayaAttr)
    (h : CreateMayaAttribute name dataType dataTypeStr arrayType arrayTypeStr isInput isOutput
      compoundStructure = .ok a) :
    a.props.array = some (decide (arrayType = .AT_Array_Multi)) := by
  obtain ⟨attr, ha⟩ := CreateMayaAttribute_ok_setup _ _ _ _ _ _ _ _ _ h
  rw [ha]
  exact SetupMayaAttribute_array _ _ _ _ _ _ _

theorem inferredArrayType_multi_iff (s : String) :
    decide (inferredArrayType s = .AT_Array_Multi) = hasBracket s := by
  unfold inferredArrayType
  cases hasBracket s <;> rfl

theorem CreateMayaAttribute_legal_leaf (name : String) (dataType : DataType)
    (dataTypeStr : String) (arrayType : ArrayType) (arrayTypeStr : String)
    (isInput isOutput : Bool) (compoundStructure : Variant)
    (hd : dataType ≠ .DT_CompoundParam) (h : LegalPair dataType arrayType = true) :
    ∃ a, CreateMayaAttribute name dataType dataTypeStr arrayType arrayTypeStr isInput isOutput
      compoundStructure = .ok a := by
  obtain ⟨attr, hattr⟩ := createLeafObject_legal name dataType dataTypeStr arrayType
    arrayTypeStr isInput isOutput compoundStructure hd h
  refine ⟨SetupMayaAttribute attr dataType dataTypeStr arrayType arrayTypeStr
    isInput isOutput, ?_⟩
  rw [CreateMayaAttribute.eq_def, if_neg (fun hc => hd hc.1), hattr]
  rfl

theorem SetupMayaAttribute_keeps_bounds (attr : MayaAttr) (dataType : DataType)
    (dataTypeStr : String) (arrayType : ArrayType) (arrayTypeStr : String)
    (isInput isOutput : Bool) (h : NoBounds attr) :
    NoBounds (SetupMayaAttribute attr dataType dataTypeStr arrayType arrayTypeStr
      isInput isOutput) := by
  unfold NoBounds at h ⊢
  unfold SetupMayaAttribute
  rw [props_withProps]
  cases dataType <;> cases arrayType <;> exact h

theorem ApplyMinMax_of_not_lt (attr : MayaAttr) (options : Variant)
    (h : ¬ GetScalarOption "uiMin" options < GetScalarOption "uiMax" options) :
    ApplyMinMax attr options = attr := by
  unfold ApplyMinMax
  dsimp only
  rw [if_neg h]

theorem scalarAttr_noBounds (name : String) (options : Variant)
    (h : ¬ GetScalarOption "uiMin" options < GetScalarOption "uiMax" options) :
    NoBounds (scalarAttr name options) := by
  unfold scalarAttr
  dsimp only
  simp only [ApplyMinMax_of_not_lt _ options h]
  split_ifs <;> exact ⟨rfl, rfl, rfl, rfl⟩

@[simp] theorem kind_freshAttr (name : String) (kind : AttrKind) :
    (freshAttr name kind).kind = kind := rfl

@[simp] theorem kind_SetupMayaAttribute (attr : MayaAttr) (dataType : DataType)
    (dataTypeStr : String) (arrayType : ArrayType) (arrayTypeStr : String)
    (isInput isOutput : Bool) :
    (SetupMayaAttribute attr dataType dataTypeStr arrayType arrayTypeStr
      isInput isOutput).kind = attr.kind := by
  unfold SetupMayaAttribute
  exact kind_withProps _ _

@[simp] theorem children_SetupMayaAttribute (attr : MayaAttr) (dataType : DataType)
    (dataTypeStr : String) (arrayType : ArrayType) (arrayTypeStr : String)
    (isInput isOutput : Bool) :
    (SetupMayaAttribute attr dataType dataTypeStr arrayType arrayTypeStr
      isInput isOutput).children = attr.children := by
  unfold SetupMayaAttribute
  exact children_withProps _ _

@[simp] theorem kind_ApplyMinMax (attr : MayaAttr) (options : Variant) :
    (ApplyMinMax attr options).kind = attr.kind := by
  unfold ApplyMinMax
  dsimp only
  split_ifs <;> simp

theorem CreateMayaAttribute_scalar (name dataTypeStr : String) (arrayType : ArrayType)
    (arrayTypeStr : String) (isInput isOutput : Bool) (options : Variant)
    (hat : arrayType = .AT_Single ∨ arrayType = .AT_Array_Multi) :
    CreateMayaAttribute name .DT_Scalar dataTypeStr arrayType arrayTypeStr isInput isOutput
      options = .ok (SetupMayaAttribute (scalarAttr name options) .DT_Scalar dataTypeStr
        arrayType arrayTypeStr isInput isOutput) := by
  rw [CreateMayaAttribute.eq_def, if_neg (by simp)]
  rcases hat with hat | hat <;> subst hat <;> rfl

theorem CreateMayaAttribute_integer (name dataTypeStr : String) (arrayType : ArrayType)
    (arrayTypeStr : String) (isInput isOutput : Bool) (options : Variant)
    (hat : arrayType = .AT_Single ∨ arrayType = .AT_Array_Multi) :
    CreateMayaAttribute name .DT_Integer dataTypeStr arrayType arrayTypeStr isInput isOutput
      options = .ok (SetupMayaAttribute (ApplyMinMax (freshAttr name (.numeric .kInt)) options)
        .DT_Integer dataTypeStr arrayType arrayTypeStr isInput isOutput) := by
  rw [CreateMayaAttribute.eq_def, if_neg (by simp)]
  rcases hat with hat | hat <;> subst hat <;> rfl

theorem kind_scalarAttr (name : String) (options : Variant) :
    (scalarAttr name options).kind =
      if GetStringOption "scalarUnit" options = "time" then .unit .kTime
      else if GetStringOption "scalarUnit" options = "angle" then .unit .kAngle
      else if GetStringOption "scalarUnit" options = "distance" then .unit .kDistance
      else .numeric .kDouble := by
  unfold scalarAttr
  dsimp only
  split_ifs <;> simp

theorem SetupMayaAttribute_storable (attr : MayaAttr) (dataType : DataType)
    (dataTypeStr : String) (arrayType : ArrayType) (arrayTypeStr : String)
    (isInput isOutput : Bool) :
    (SetupMayaAttribute attr dataType dataTypeStr arrayType arrayTypeStr
      isInput isOutput).props.storable
        = some (if isComplexType dataType then false else (isInput && !isOutput)) ∧
    (SetupMayaAttribute attr dataType dataTypeStr arrayType arrayTypeStr
      isInput isOutput).props.keyable
        = some (if isComplexType dataType then false else (isInput && !isOutput)) := by
  unfold SetupMayaAttribute
  rw [props_withProps]
  cases dataType <;> cases arrayType <;> exact ⟨rfl, rfl⟩

theorem SetupMayaAttribute_direction (attr : MayaAttr) (dataType : DataType)
    (dataTypeStr : String) (arrayType : ArrayType) (arrayTypeStr : String)
    (isInput isOutput : Bool) :
    (SetupMayaAttribute attr dataType dataTypeStr arrayType arrayTypeStr
      isInput isOutput).props.readable = some isOutput ∧
    (SetupMayaAttribute attr dataType dataTypeStr arrayType arrayTypeStr
      isInput isOutput).props.writable = some isInput := by
  unfold SetupMayaAttribute
  rw [props_withProps]
  cases dataType <;> cases arrayType <;> exact ⟨rfl, rfl⟩

theorem SetupMayaAttribute_builder (attr : MayaAttr) (dataType : DataType)
    (dataTypeStr : String) (arrayType : ArrayType) (arrayTypeStr : String)
    (isInput isOutput : Bool) :
    (SetupMayaAttribute attr dataType dataTypeStr arrayType arrayTypeStr
      isInput isOutput).props.usesArrayDataBuilder
        = some (decide (arrayType = .AT_Array_Multi ∧ dataType ≠ .DT_KeyframeTrack)) := by
  unfold SetupMayaAttribute
  rw [props_withProps]
  cases dataType <;> cases arrayType <;> rfl

theorem GetScalarOption_dict (key : String) (entries : List (String × Variant))
    (defaultValue : FloatValue) :
    GetScalarOption key (.dict entries) defaultValue
      = (((getDictValue key entries).bind Variant.toScalar?).map castToFloat).getD
          defaultValue := by
  unfold GetScalarOption
  dsimp only
  cases getDictValue key entries with
  | none => rfl
  | some v => cases v <;> rfl

theorem FloatValue.not_lt_of_le {a b : FloatValue} (h : b ≤ a) : ¬ a < b := by
  intro hlt
  have h1 : FloatValue.lt a b = false := h
  have h2 : FloatValue.lt a b = true := hlt
  rw [h1] at h2
  cases h2

theorem FloatValue.not_lt_self (a : FloatValue) : ¬ a < a := by
  intro h
  have h2 : FloatValue.lt a a = true := h
  cases a with
  | negInf => cases h2
  | posInf => cases h2
  | finite q =>
    simp only [FloatValue.lt, decide_eq_true_eq] at h2
    exact absurd h2 (lt_irrefl q)

theorem GetScalarOption_not_dict (key : String) (options : Variant) (defaultValue : FloatValue)
    (h : ∀ entries, options ≠ .dict entries) :
    GetScalarOption key options defaultValue = defaultValue := by
  cases options <;> first
    | rfl
    | exact absurd rfl (h _)

theorem ApplyMinMax_hard_bounds (attr : MayaAttr) (options : Variant)
    (h : GetScalarOption "uiMin" options < GetScalarOption "uiMax" options) :
    (ApplyMinMax attr options).props.min = some (GetScalarOption "uiMin" options) ∧
    (ApplyMinMax attr options).props.max = some (GetScalarOption "uiMax" options) :=
  ⟨(ApplyMinMax_bounds attr options h).1, (ApplyMinMax_bounds attr options h).2.1⟩

theorem castToFloat_samples :
    castToFloat 0 = 0 ∧ castToFloat 10 = 10 ∧ castToFloat (-3) = .finite (-3) ∧
    castToFloat 16777216 = 16777216 ∧ castToFloat 16777217 = 16777216 ∧
    castToFloat 16777219 = 16777220 ∧
    castToFloat (1 / 10) = .finite (13421773 / 134217728) ∧
    castToFloat (1 / 10 ^ 60) = 0 ∧
    castToFloat (1 / 2 ^ 149) = .finite (1 / 2 ^ 149) ∧
    castToFloat (1 / 2 ^ 150) = 0 ∧
    castToFloat (16777215 * 2 ^ 104) = .finite (16777215 * 2 ^ 104) ∧
    castToFloat (16777215 * 2 ^ 104 + 2 ^ 103) = .posInf ∧
    castToFloat (-(10 ^ 39)) = .negInf := by
  decide!

theorem adjacent_integers_set_no_bound (attr : MayaAttr) :
    ApplyMinMax attr adjacentIntegerOptions = attr := by
  unfold ApplyMinMax
  dsimp only
  rw [if_neg (by decide!)]

theorem compoundLoop_dict_step (name : String) (isInput isOutput : Bool) (k : String)
    (es rest : List (String × Variant)) (acc : List MayaAttr) (obj : MObject) :
    compoundLoop name isInput isOutput ((k, .dict es) :: rest) acc obj =
      match buildChild isInput isOutput k es with
      | .error e => .error e
      | .ok child =>
        compoundLoop name isInput isOutput rest (acc ++ [child])
          (some (createCompound name (acc ++ [child]))) := by
  rw [compoundLoop.eq_3]
  unfold buildChild
  cases getDictValue "dataType" es with
  | none => rfl
  | some v =>
    cases v <;> try rfl
    case string s =>
      dsimp only
      cases ParseDataType s with
      | error e => rfl
      | ok dt =>
        dsimp only
        unfold inferredArrayTypeStr
        cases ParseArrayType (if hasBracket s = true then "Array (Multi)" else "Single Value") with
        | error e => rfl
        | ok arrayType => rfl

theorem compoundLoop_other_step (name : String) (isInput isOutput : Bool) (k : String)
    (v : Variant) (rest : List (String × Variant)) (acc : List MayaAttr) (obj : MObject)
    (hnull : v.isNull = false) (hdict : ∀ es, v ≠ .dict es) :
    compoundLoop name isInput isOutput ((k, v) :: rest) acc obj =
      compoundLoop name isInput isOutput rest acc (some (createCompound name acc)) := by
  apply compoundLoop.eq_4
  · intro h
    subst h
    cases hnull
  · intro es h
    exact hdict es h

theorem collectChildren_all_null (isInput isOutput : Bool) :
    ∀ (entries : List (String × Variant)),
      entries.all (fun e => e.2.isNull) = true →
      collectChildren isInput isOutput entries = .ok []
  | [], _ => rfl
  | (k, v) :: rest, h => by
    simp only [List.all_cons, Bool.and_eq_true] at h
    cases v <;> first
      | exact collectChildren_all_null isInput isOutput rest h.2
      | exact absurd h.1 (by simp [Variant.isNull])

theorem compoundLoop_eq_collect (name : String) (isInput isOutput : Bool) :
    ∀ (entries : List (String × Variant)) (acc : List MayaAttr) (obj : MObject),
      compoundLoop name isInput isOutput entries acc obj =
        match collectChildren isInput isOutput entries with
        | .error e => .error e
        | .ok cs =>
          .ok (acc ++ cs,
            if entries.all (fun e => e.2.isNull) = true then obj
            else some (createCompound name (acc ++ cs)))
  | [], acc, obj => by
    simp [compoundLoop, collectChildren]
  | (k, v) :: rest, acc, obj => by
    by_cases hnull : v.isNull = true
    · have hv : v = .null := by
        cases v <;> first
          | rfl
          | exact absurd hnull (by simp [Variant.isNull])
      subst hv
      rw [compoundLoop.eq_2, compoundLoop_eq_collect name isInput isOutput rest acc obj]
      have hc : collectChildren isInput isOutput ((k, Variant.null) :: rest)
          = collectChildren isInput isOutput rest := rfl
      have ha : ((k, Variant.null) :: rest).all (fun e => e.2.isNull)
          = rest.all (fun e => e.2.isNull) := by
        simp [Variant.isNull]
      rw [hc, ha]
    · have hall : ((k, v) :: rest).all (fun e => e.2.isNull) = false := by
        simp only [List.all_cons, Bool.and_eq_false_imp]
        intro h
        exact absurd h hnull
      have hfix : ∀ (cs : List MayaAttr) (front : List MayaAttr),
          collectChildren isInput isOutput rest = .ok cs →
          (if rest.all (fun e => e.2.isNull) = true then some (createCompound name front)
            else some (createCompound name (front ++ cs)))
          = some (createCompound name (front ++ cs)) := by
        intro cs front hcs
        by_cases hr : rest.all (fun e => e.2.isNull) = true
        · rw [collectChildren_all_null isInput isOutput rest hr] at hcs
          cases hcs
          simp [hr]
        · simp [hr]
      rw [hall]
      by_cases hd : ∃ es, v = .dict es
      · obtain ⟨es, hes⟩ := hd
        subst hes
        rw [compoundLoop_dict_step]
        have hc : collectChildren isInput isOutput ((k, Variant.dict es) :: rest)
            = match buildChild isInput isOutput k es with
              | .error e => .error e
              | .ok child =>
                match collectChildren isInput isOutput rest with
                | .error e => .error e
                | .ok childAttrs => .ok (child :: childAttrs) := rfl
        rw [hc]
        cases buildChild isInput isOutput k es with
        | error e => rfl
        | ok child =>
          dsimp only
          rw [compoundLoop_eq_collect name isInput isOutput rest]
          cases hcs : collectChildren isInput isOutput rest with
          | error e => rfl
          | ok cs =>
            dsimp only
            rw [hfix cs (acc ++ [child]) hcs]
            simp
      · have hnd : ∀ es, v ≠ .dict es := fun es h => hd ⟨es, h⟩
        rw [compoundLoop_other_step name isInput isOutput k v rest acc obj
          (by simpa using hnull) hnd]
        have hc : collectChildren isInput isOutput ((k, v) :: rest)
            = collectChildren isInput isOutput rest := by
          cases v <;> first
            | rfl
            | exact absurd rfl (hnd _)
        rw [hc, compoundLoop_eq_collect name isInput isOutput rest]
        cases hcs : collectChildren isInput isOutput rest with
        | error e => rfl
        | ok cs =>
          dsimp only
          have h := hfix cs acc hcs
          by_cases hr : rest.all (fun e => e.2.isNull) = true
          · rw [collectChildren_all_null isInput isOutput rest hr] at hcs
            cases hcs
            simp [hr]
          · simp [hr]

theorem CreateMayaAttribute_compound_eq (name dataTypeStr : String) (arrayType : ArrayType)
    (arrayTypeStr : String) (isInput isOutput : Bool) (entries : List (String × Variant))
    (hat : arrayType = .AT_Single ∨ arrayType = .AT_Array_Multi) :
    CreateMayaAttribute name .DT_CompoundParam dataTypeStr arrayType arrayTypeStr
        isInput isOutput (.dict entries) =
      match collectChildren isInput isOutput entries with
      | .error e => .error e
      | .ok cs =>
        if entries.all (fun e => e.2.isNull) = true then .error .assertFailed
        else .ok (SetupMayaAttribute (createCompound name cs) .DT_CompoundParam dataTypeStr
          arrayType arrayTypeStr isInput isOutput) := by
  have hc : (DataType.DT_CompoundParam = DataType.DT_CompoundParam ∧
      arrayType ≠ ArrayType.AT_Array_Native) := by
    rcases hat with h | h <;> subst h <;> exact ⟨rfl, by decide⟩
  rw [CreateMayaAttribute.eq_def, if_pos hc]
  dsimp only
  rw [compoundLoop_eq_collect]
  cases collectChildren isInput isOutput entries with
  | error e => rfl
  | ok cs =>
    dsimp only
    by_cases hr : entries.all (fun e => e.2.isNull) = true
    · simp only [hr, if_true]
      rfl
    · simp only [hr]
      rfl

theorem collectChildren_dict (isInput isOutput : Bool) (k : String)
    (es rest : List (String × Variant)) :
    collectChildren isInput isOutput ((k, Variant.dict es) :: rest) =
      match buildChild isInput isOutput k es with
      | .error e => .error e
      | .ok child =>
        match collectChildren isInput isOutput rest with
        | .error e => .error e
        | .ok childAttrs => .ok (child :: childAttrs) := rfl

theorem collectChildren_error_of_child (isInput isOutput : Bool) (k : String)
    (es : List (String × Variant)) (e : Failure)
    (hchild : buildChild isInput isOutput k es = .error e) :
    ∀ (entries : List (String × Variant)), (k, Variant.dict es) ∈ entries →
      ∃ f, collectChildren isInput isOutput entries = .error f
  | [], h => absurd h (List.not_mem_nil _)
  | (k2, v) :: rest, h => by
    rcases List.mem_cons.mp h with heq | hmem
    · cases heq
      refine ⟨e, ?_⟩
      rw [collectChildren_dict, hchild]
    · obtain ⟨f, hf⟩ := collectChildren_error_of_child isInput isOutput k es e hchild rest hmem
      cases v
      case dict es2 =>
        rw [collectChildren_dict]
        cases buildChild isInput isOutput k2 es2 with
        | error e2 => exact ⟨e2, rfl⟩
        | ok child =>
          dsimp only
          rw [hf]
          exact ⟨f, rfl⟩
      all_goals exact ⟨f, hf⟩

theorem collectChildren_mem (isInput isOutput : Bool) (k : String)
    (es : List (String × Variant)) :
    ∀ (entries : List (String × Variant)) (cs : List MayaAttr),
      collectChildren isInput isOutput entries = .ok cs →
      (k, Variant.dict es) ∈ entries →
      ∃ child ∈ cs, buildChild isInput isOutput k es = .ok child
  | [], _, _, h => absurd h (List.not_mem_nil _)
  | (k2, v) :: rest, cs, hcs, h => by
    cases v
    case dict es2 =>
      have hc : collectChildren isInput isOutput ((k2, Variant.dict es2) :: rest)
          = match buildChild isInput isOutput k2 es2 with
            | .error e => .error e
            | .ok child =>
              match collectChildren isInput isOutput rest with
              | .error e => .error e
              | .ok childAttrs => .ok (child :: childAttrs) := rfl
      rw [hc] at hcs
      cases hb : buildChild isInput isOutput k2 es2 with
      | error e2 =>
        rw [hb] at hcs
        cases hcs
      | ok child =>
        rw [hb] at hcs
        dsimp only at hcs
        cases hr : collectChildren isInput isOutput rest with
        | error e3 =>
          rw [hr] at hcs
          cases hcs
        | ok cs2 =>
          rw [hr] at hcs
          cases hcs
          rcases List.mem_cons.mp h with heq | hmem
          · cases heq
            exact ⟨child, List.mem_cons_self _ _, hb⟩
          · obtain ⟨c, hc1, hc2⟩ := collectChildren_mem isInput isOutput k es rest cs2 hr hmem
            exact ⟨c, List.mem_cons_of_mem _ hc1, hc2⟩
    all_goals
      rcases List.mem_cons.mp h with heq | hmem
      · cases heq
      · exact collectChildren_mem isInput isOutput k es rest cs hcs hmem

theorem collectChildren_skip (isInput isOutput : Bool) (k : String) (v : Variant)
    (post : List (String × Variant)) (hd : ∀ es, v ≠ .dict es) :
    ∀ (pre : List (String × Variant)),
      collectChildren isInput isOutput (pre ++ (k, v) :: post)
        = collectChildren isInput isOutput (pre ++ post)
  | [] => by
    cases v <;> first
      | rfl
      | exact absurd rfl (hd _)
  | (k2, v2) :: pre => by
    have ih := collectChildren_skip isInput isOutput k v post hd pre
    cases v2
    case dict es2 =>
      rw [List.cons_append, List.cons_append, collectChildren_dict, collectChildren_dict, ih]
    all_goals exact ih

theorem CreateMayaAttribute_fails_of_child (name dataTypeStr : String)
    (arrayType : ArrayType) (arrayTypeStr : String) (isInput isOutput : Bool)
    (entries : List (String × Variant)) (k : String) (es : List (String × Variant))
    (e : Failure) (hat : arrayType = .AT_Single ∨ arrayType = .AT_Array_Multi)
    (hmem : (k, Variant.dict es) ∈ entries)
    (hchild : buildChild isInput isOutput k es = .error e) :
    ∃ f, CreateMayaAttribute name .DT_CompoundParam dataTypeStr arrayType arrayTypeStr
      isInput isOutput (.dict entries) = .error f := by
  obtain ⟨f, hf⟩ := collectChildren_error_of_child isInput isOutput k es e hchild entries hmem
  exact ⟨f, by rw [CreateMayaAttribute_compound_eq _ _ _ _ _ _ _ hat, hf]⟩

theorem CreateMayaAttribute_illegal_error (name : String) (dataType : DataType)
    (dataTypeStr : String) (arrayType : ArrayType) (arrayTypeStr : String)
    (isInput isOutput : Bool) (compoundStructure : Variant)
    (h : LegalPair dataType arrayType = false) :
    ∃ msg, CreateMayaAttribute name dataType dataTypeStr arrayType arrayTypeStr
      isInput isOutput compoundStructure = .error (.exception msg) := by
  have hnot : ¬ (dataType = .DT_CompoundParam ∧ arrayType ≠ .AT_Array_Native) := by
    rintro ⟨hd, ha⟩
    subst hd
    cases arrayType <;> simp [LegalPair] at h ha
  obtain ⟨msg, hmsg⟩ := createLeafObject_illegal name dataType dataTypeStr arrayType
    arrayTypeStr isInput isOutput compoundStructure h
  exact ⟨msg, by rw [CreateMayaAttribute.eq_def, if_neg hnot, hmsg]⟩

theorem buildChild_typed (isInput isOutput : Bool) (k : String)
    (es : List (String × Variant)) (s : String) (dt : DataType)
    (hget : getDictValue "dataType" es = some (.string s))
    (hparse : ParseDataType s = .ok dt) :
    buildChild isInput isOutput k es =
      CreateMayaAttribute k dt s (inferredArrayType s) (inferredArrayTypeStr s)
        isInput isOutput (.dict es) := by
  unfold buildChild
  rw [hget]
  dsimp only
  rw [hparse]
  dsimp only
  rw [ParseArrayType_inferred]

theorem buildChild_untyped (isInput isOutput : Bool) (k : String)
    (es : List (String × Variant))
    (hget : ∀ s, getDictValue "dataType" es ≠ some (.string s)) :
    buildChild isInput isOutput k es =
      CreateMayaAttribute k .DT_CompoundParam "CompoundParam" .AT_Single "Single Value"
        isInput isOutput (.dict es) := by
  unfold buildChild
  split
  · rename_i s hs
    exact absurd hs (hget s)
  · rfl

theorem inferredArrayType_cases (s : String) :
    inferredArrayType s = .AT_Single ∨ inferredArrayType s = .AT_Array_Multi := by
  unfold inferredArrayType
  cases hasBracket s
  · exact Or.inl rfl
  · exact Or.inr rfl

theorem CreateMayaAttribute_compound_ok (name dataTypeStr : String) (arrayType : ArrayType)
    (arrayTypeStr : String) (isInput isOutput : Bool) (entries : List (String × Variant))
    (a : MayaAttr)
    (h : CreateMayaAttribute name .DT_CompoundParam dataTypeStr arrayType arrayTypeStr
      isInput isOutput (.dict entries) = .ok a) :
    ∃ cs, collectChildren isInput isOutput entries = .ok cs ∧
      a = SetupMayaAttribute (createCompound name cs) .DT_CompoundParam dataTypeStr
        arrayType arrayTypeStr isInput isOutput := by
  have hat : arrayType = .AT_Single ∨ arrayType = .AT_Array_Multi := by
    cases arrayType
    · exact Or.inl rfl
    · exact Or.inr rfl
    · obtain ⟨msg, hmsg⟩ := CreateMayaAttribute_illegal_error name .DT_CompoundParam
        dataTypeStr .AT_Array_Native arrayTypeStr isInput isOutput (.dict entries) rfl
      rw [hmsg] at h
      cases h
  rw [CreateMayaAttribute_compound_eq _ _ _ _ _ _ _ hat] at h
  cases hcs : collectChildren isInput isOutput entries with
  | error e =>
    rw [hcs] at h
    cases h
  | ok cs =>
    rw [hcs] at h
    dsimp only at h
    split at h
    · cases h
    · cases h
      exact ⟨cs, rfl, rfl⟩

theorem all_isNull_of_nonnull_mem (entries : List (String × Variant))
    (h : ∃ e ∈ entries, e.2.isNull = false) :
    ¬ entries.all (fun e => e.2.isNull) = true := by
  intro hall
  obtain ⟨e, he, hn⟩ := h
  have := List.all_eq_true.mp hall e he
  rw [hn] at this
  cases this

mutual

theorem Variant.dict_induction {P : Variant → Prop}
    (hdict : ∀ entries : List (String × Variant), (∀ e ∈ entries, P e.2) → P (.dict entries))
    (hleaf : ∀ v : Variant, (∀ entries, v ≠ .dict entries) → P v) : ∀ v : Variant, P v
  | .dict entries => hdict entries (Variant.dict_induction_entries hdict hleaf entries)
  | .null => hleaf _ (fun _ h => Variant.noConfusion h)
  | .boolean _ => hleaf _ (fun _ h => Variant.noConfusion h)
  | .sint8 _ => hleaf _ (fun _ h => Variant.noConfusion h)
  | .sint16 _ => hleaf _ (fun _ h => Variant.noConfusion h)
  | .sint32 _ => hleaf _ (fun _ h => Variant.noConfusion h)
  | .sint64 _ => hleaf _ (fun _ h => Variant.noConfusion h)
  | .uint8 _ => hleaf _ (fun _ h => Variant.noConfusion h)
  | .uint16 _ => hleaf _ (fun _ h => Variant.noConfusion h)
  | .uint32 _ => hleaf _ (fun _ h => Variant.noConfusion h)
  | .uint64 _ => hleaf _ (fun _ h => Variant.noConfusion h)
  | .float32 _ => hleaf _ (fun _ h => Variant.noConfusion h)
  | .float64 _ => hleaf _ (fun _ h => Variant.noConfusion h)
  | .string _ => hleaf _ (fun _ h => Variant.noConfusion h)
  | .array _ => hleaf _ (fun _ h => Variant.noConfusion h)

theorem Variant.dict_induction_entries {P : Variant → Prop}
    (hdict : ∀ entries : List (String × Variant), (∀ e ∈ entries, P e.2) → P (.dict entries))
    (hleaf : ∀ v : Variant, (∀ entries, v ≠ .dict entries) → P v) :
    ∀ entries : List (String × Variant), ∀ e ∈ entries, P e.2
  | [], _, h => absurd h (List.not_mem_nil _)
  | (_, v) :: rest, e, h =>
    match List.mem_cons.mp h with
    | Or.inl heq => heq ▸ Variant.dict_induction hdict hleaf v
    | Or.inr hmem => Variant.dict_induction_entries hdict hleaf rest e hmem

end

theorem finalizedAll_iff (isInput isOutput : Bool) :
    ∀ cs : List MayaAttr,
      finalizedAll isInput isOutput cs = true ↔
        ∀ c ∈ cs, finalizedTree isInput isOutput c = true
  | [] => by simp [finalizedAll]
  | c :: cs => by
    simp [finalizedAll, finalizedAll_iff isInput isOutput cs]

@[simp] theorem children_freshAttr (name : String) (kind : AttrKind) :
    (freshAttr name kind).children = [] := rfl

@[simp] theorem children_ApplyMinMax (attr : MayaAttr) (options : Variant) :
    (ApplyMinMax attr options).children = attr.children := by
  unfold ApplyMinMax
  dsimp only
  split_ifs <;> simp

@[simp] theorem children_scalarAttr (name : String) (options : Variant) :
    (scalarAttr name options).children = [] := by
  unfold scalarAttr
  dsimp only
  split_ifs <;> simp

theorem complexKind_scalarAttr (name : String) (options : Variant) :
    complexKind (scalarAttr name options).kind = false := by
  rw [kind_scalarAttr]
  split_ifs <;> rfl

theorem finalizedTree_Setup (attr : MayaAttr) (dataType : DataType) (dataTypeStr : String)
    (arrayType : ArrayType) (arrayTypeStr : String) (isInput isOutput : Bool)
    (hk : complexKind attr.kind = isComplexType dataType)
    (hc : finalizedAll isInput isOutput attr.children = true) :
    finalizedTree isInput isOutput (SetupMayaAttribute attr dataType dataTypeStr arrayType
      arrayTypeStr isInput isOutput) = true := by
  cases attr with
  | mk n k p cs =>
    simp only [MayaAttr.kind] at hk
    simp only [MayaAttr.children] at hc
    cases dataType <;> cases arrayType <;>
      simp [SetupMayaAttribute, MayaAttr.withProps, MayaAttr.props, finalizedTree,
        finalizedProps, isComplexType, hc] at hk ⊢ <;>
      simp [hk]

theorem finalizedTree_xyzChild (name suffix : String) (kind : AttrKind)
    (isInput isOutput : Bool) (hk : complexKind kind = false) :
    finalizedTree isInput isOutput (xyzChild name suffix kind isInput isOutput) = true := by
  unfold xyzChild
  exact finalizedTree_Setup _ _ _ _ _ _ _ (by rw [kind_freshAttr, hk]; rfl) rfl

theorem finalizedAll_colorAttr (name : String) (isInput isOutput : Bool) :
    finalizedAll isInput isOutput (colorAttr name isInput isOutput).children = true := by
  rw [finalizedAll_iff]
  intro c hc
  simp only [colorAttr, createColor, MayaAttr.withChildren, MayaAttr.children, List.map_cons,
    List.map_nil, List.mem_cons, List.mem_singleton, List.not_mem_nil, or_false] at hc
  rcases hc with hc | hc | hc <;> subst hc <;>
    exact finalizedTree_Setup _ _ _ _ _ _ _ rfl rfl

@[simp] theorem kind_colorAttr (name : String) (isInput isOutput : Bool) :
    (colorAttr name isInput isOutput).kind = .color := by
  unfold colorAttr
  rw [show ∀ (a : MayaAttr) (cs : List MayaAttr), (a.withChildren cs).kind = a.kind from
    fun a cs => by cases a; rfl]
  rfl

@[simp] theorem kind_createNumeric3 (name : String) (x y z : MayaAttr) :
    (createNumeric3 name x y z).kind = .numeric3 := rfl

theorem finalizedAll_xyz (name : String) (kind : AttrKind) (isInput isOutput : Bool)
    (hk : complexKind kind = false) :
    finalizedAll isInput isOutput (createNumeric3 name
      (xyzChild name "X" kind isInput isOutput)
      (xyzChild name "Y" kind isInput isOutput)
      (xyzChild name "Z" kind isInput isOutput)).children = true := by
  rw [finalizedAll_iff]
  intro c hc
  simp only [createNumeric3, MayaAttr.children, List.mem_cons, List.mem_singleton,
    List.not_mem_nil, or_false] at hc
  rcases hc with hc | hc | hc <;> subst hc <;>
    exact finalizedTree_xyzChild _ _ _ _ _ hk

theorem createLeafObject_finalized (name : String) (dataType : DataType)
    (dataTypeStr : String) (arrayType : ArrayType) (arrayTypeStr : String)
    (isInput isOutput : Bool) (compoundStructure : Variant) (attr : MayaAttr)
    (h : createLeafObject name dataType dataTypeStr arrayType arrayTypeStr isInput isOutput
      compoundStructure = .ok (some attr)) :
    complexKind attr.kind = isComplexType dataType ∧
      finalizedAll isInput isOutput attr.children = true := by
  cases dataType
  case DT_Boolean =>
    cases arrayType <;> simp [createLeafObject, ThrowIncompatibleDataArrayTypes] at h <;>
      subst h <;>
      (refine ⟨?_, ?_⟩ <;>
        simp only [kind_freshAttr, kind_ApplyMinMax, children_freshAttr, children_ApplyMinMax,
          complexKind, isComplexType, finalizedAll])
  case DT_Integer =>
    cases arrayType <;> simp [createLeafObject, ThrowIncompatibleDataArrayTypes] at h <;>
      subst h <;>
      (refine ⟨?_, ?_⟩ <;>
        simp only [kind_freshAttr, kind_ApplyMinMax, children_freshAttr, children_ApplyMinMax,
          complexKind, isComplexType, finalizedAll])
  case DT_String =>
    cases arrayType <;> simp [createLeafObject, ThrowIncompatibleDataArrayTypes] at h <;>
      subst h <;>
      (refine ⟨?_, ?_⟩ <;>
        simp only [kind_freshAttr, kind_ApplyMinMax, children_freshAttr, children_ApplyMinMax,
          complexKind, isComplexType, finalizedAll])
  case DT_Mat44 =>
    cases arrayType <;> simp [createLeafObject, ThrowIncompatibleDataArrayTypes] at h <;>
      subst h <;>
      (refine ⟨?_, ?_⟩ <;>
        simp only [kind_freshAttr, kind_ApplyMinMax, children_freshAttr, children_ApplyMinMax,
          complexKind, isComplexType, finalizedAll])
  case DT_PolygonMesh =>
    cases arrayType <;> simp [createLeafObject, ThrowIncompatibleDataArrayTypes] at h <;>
      subst h <;>
      (refine ⟨?_, ?_⟩ <;>
        simp only [kind_freshAttr, kind_ApplyMinMax, children_freshAttr, children_ApplyMinMax,
          complexKind, isComplexType, finalizedAll])
  case DT_Curves =>
    cases arrayType <;> simp [createLeafObject, ThrowIncompatibleDataArrayTypes] at h
    subst h
    refine ⟨?_, ?_⟩ <;>
      simp only [kind_freshAttr, kind_ApplyMinMax, children_freshAttr, children_ApplyMinMax,
        complexKind, isComplexType, finalizedAll]
  case DT_Curve =>
    cases arrayType <;> simp [createLeafObject, ThrowIncompatibleDataArrayTypes] at h
    subst h
    refine ⟨?_, ?_⟩ <;>
      simp only [kind_freshAttr, kind_ApplyMinMax, children_freshAttr, children_ApplyMinMax,
        complexKind, isComplexType, finalizedAll]
  case DT_Lines =>
    cases arrayType <;> simp [createLeafObject, ThrowIncompatibleDataArrayTypes] at h <;>
      subst h <;>
      (refine ⟨?_, ?_⟩ <;>
        simp only [kind_freshAttr, kind_ApplyMinMax, children_freshAttr, children_ApplyMinMax,
          complexKind, isComplexType, finalizedAll])
  case DT_KeyframeTrack =>
    cases arrayType <;> simp [createLeafObject, ThrowIncompatibleDataArrayTypes] at h <;>
      subst h <;>
      (refine ⟨?_, ?_⟩ <;>
        simp only [kind_freshAttr, kind_ApplyMinMax, children_freshAttr, children_ApplyMinMax,
          complexKind, isComplexType, finalizedAll])
  case DT_SpliceMayaData =>
    cases arrayType <;> simp [createLeafObject, ThrowIncompatibleDataArrayTypes] at h <;>
      subst h <;>
      (refine ⟨?_, ?_⟩ <;>
        simp only [kind_freshAttr, kind_ApplyMinMax, children_freshAttr, children_ApplyMinMax,
          complexKind, isComplexType, finalizedAll])
  case DT_CompoundParam =>
    simp [createLeafObject, ThrowIncompatibleDataArrayTypes] at h
  case DT_Scalar =>
    cases arrayType <;> simp [createLeafObject] at h <;> subst h
    · exact ⟨complexKind_scalarAttr _ _, by simp only [children_scalarAttr, finalizedAll]⟩
    · exact ⟨complexKind_scalarAttr _ _, by simp only [children_scalarAttr, finalizedAll]⟩
    · exact ⟨rfl, rfl⟩
  case DT_Color =>
    cases arrayType <;> simp [createLeafObject, ThrowIncompatibleDataArrayTypes] at h <;>
      subst h <;>
      exact ⟨by simp only [kind_colorAttr, complexKind, isComplexType],
        finalizedAll_colorAttr _ _ _⟩
  case DT_Vec3 =>
    cases arrayType <;> simp [createLeafObject] at h <;> subst h
    · exact ⟨rfl, finalizedAll_xyz _ _ _ _ rfl⟩
    · exact ⟨rfl, finalizedAll_xyz _ _ _ _ rfl⟩
    · exact ⟨rfl, rfl⟩
  case DT_Euler =>
    cases arrayType <;> simp [createLeafObject, ThrowIncompatibleDataArrayTypes] at h <;>
      subst h <;>
      exact ⟨rfl, finalizedAll_xyz _ _ _ _ rfl⟩

theorem collectChildren_forall (isInput isOutput : Bool) (Q : MayaAttr → Prop) :
    ∀ (entries : List (String × Variant)) (cs : List MayaAttr),
      (∀ k es, (k, Variant.dict es) ∈ entries →
        ∀ child, buildChild isInput isOutput k es = .ok child → Q child) →
      collectChildren isInput isOutput entries = .ok cs → ∀ c ∈ cs, Q c
  | [], cs, _, h => by
    cases h
    intro c hc
    cases hc
  | (k2, v) :: rest, cs, hq, h => by
    have hrest : ∀ k es, (k, Variant.dict es) ∈ rest →
        ∀ child, buildChild isInput isOutput k es = .ok child → Q child :=
      fun k es hm => hq k es (List.mem_cons_of_mem _ hm)
    cases v
    case dict es2 =>
      rw [collectChildren_dict] at h
      cases hb : buildChild isInput isOutput k2 es2 with
      | error e =>
        rw [hb] at h
        cases h
      | ok child =>
        rw [hb] at h
        dsimp only at h
        cases hr : collectChildren isInput isOutput rest with
        | error e =>
          rw [hr] at h
          cases h
        | ok cs2 =>
          rw [hr] at h
          cases h
          intro c hc
          rcases List.mem_cons.mp hc with heq | hmem
          · subst heq
            exact hq k2 es2 (List.mem_cons_self _ _) c hb
          · exact collectChildren_forall isInput isOutput Q rest cs2 hrest hr c hmem
    all_goals exact collectChildren_forall isInput isOutput Q rest cs hrest h

theorem buildChild_eq_create (isInput isOutput : Bool) (k : String)
    (es : List (String × Variant)) (child : MayaAttr)
    (h : buildChild isInput isOutput k es = .ok child) :
    ∃ dt dtStr arrayType arrayTypeStr,
      CreateMayaAttribute k dt dtStr arrayType arrayTypeStr isInput isOutput (.dict es)
        = .ok child := by
  unfold buildChild at h
  split at h
  · split at h
    · cases h
    · split at h
      · cases h
      · exact ⟨_, _, _, _, h⟩
  · exact ⟨_, _, _, _, h⟩

theorem CreateMayaAttribute_finalized (isInput isOutput : Bool) :
    ∀ (compoundStructure : Variant) (name : String) (dataType : DataType)
      (dataTypeStr : String) (arrayType : ArrayType) (arrayTypeStr : String) (a : MayaAttr),
      CreateMayaAttribute name dataType dataTypeStr arrayType arrayTypeStr isInput isOutput
        compoundStructure = .ok a →
      finalizedTree isInput isOutput a = true ∧ complexKind a.kind = isComplexType dataType := by
  have hleafcase : ∀ (v : Variant) (name : String) (dataType : DataType)
      (dataTypeStr : String) (arrayType : ArrayType) (arrayTypeStr : String) (a : MayaAttr),
      ¬ (dataType = .DT_CompoundParam ∧ arrayType ≠ .AT_Array_Native) →
      CreateMayaAttribute name dataType dataTypeStr arrayType arrayTypeStr isInput isOutput
        v = .ok a →
      finalizedTree isInput isOutput a = true ∧
        complexKind a.kind = isComplexType dataType := by
    intro v name dataType dataTypeStr arrayType arrayTypeStr a hc h
    rw [CreateMayaAttribute.eq_def, if_neg hc] at h
    cases hl : createLeafObject name dataType dataTypeStr arrayType arrayTypeStr isInput
        isOutput v with
    | error e =>
      rw [hl] at h
      cases h
    | ok obj =>
      rw [hl] at h
      dsimp only at h
      obtain ⟨attr, hobj, ha⟩ := finishAttribute_ok _ _ _ _ _ _ _ _ h
      subst hobj
      obtain ⟨hk, hch⟩ := createLeafObject_finalized _ _ _ _ _ _ _ _ _ hl
      rw [ha]
      exact ⟨finalizedTree_Setup _ _ _ _ _ _ _ hk hch, by rw [kind_SetupMayaAttribute]; exact hk⟩
  intro compoundStructure
  induction compoundStructure using Variant.dict_induction with
  | hdict entries ih =>
    intro name dataType dataTypeStr arrayType arrayTypeStr a h
    by_cases hc : dataType = .DT_CompoundParam ∧ arrayType ≠ .AT_Array_Native
    · obtain ⟨hd, _⟩ := hc
      subst hd
      obtain ⟨cs, hcs, ha⟩ := CreateMayaAttribute_compound_ok _ _ _ _ _ _ _ _ h
      have hall : ∀ c ∈ cs, finalizedTree isInput isOutput c = true := by
        refine collectChildren_forall isInput isOutput _ entries cs ?_ hcs
        intro k es hmem child hchild
        obtain ⟨dt, dtStr, at2, atStr, hcreate⟩ := buildChild_eq_create _ _ _ _ _ hchild
        exact (ih (k, .dict es) hmem k dt dtStr at2 atStr child hcreate).1
      rw [ha]
      refine ⟨finalizedTree_Setup _ _ _ _ _ _ _ rfl ?_, by rw [kind_SetupMayaAttribute]; rfl⟩
      exact (finalizedAll_iff isInput isOutput cs).mpr hall
    · exact hleafcase _ _ _ _ _ _ _ hc h
  | hleaf v hv =>
    intro name dataType dataTypeStr arrayType arrayTypeStr a h
    by_cases hc : dataType = .DT_CompoundParam ∧ arrayType ≠ .AT_Array_Native
    · rw [CreateMayaAttribute.eq_def, if_pos hc] at h
      cases v <;> first
        | exact absurd rfl (hv _)
        | cases h
    · exact hleafcase _ _ _ _ _ _ _ hc h

theorem typeOfName_of_alias : ∀ p ∈ typeAliases, typeOfName p.1 = some p.2 := by
  decide

theorem typeOfName_none_of_unrecognised (n : String) (h : n ∉ recognisedTypeNames) :
    typeOfName n = none := by
  simp only [recognisedTypeNames, List.mem_cons, List.mem_singleton, List.not_mem_nil,
    not_or, or_false] at h
  unfold typeOfName
  simp only [h, if_false]

theorem recognisedTypeNames_eq : recognisedTypeNames = typeAliases.map Prod.fst := rfl

theorem typeOfName_eq_some_iff (n : String) (dt : DataType) :
    typeOfName n = some dt ↔ (n, dt) ∈ typeAliases := by
  constructor
  · intro h
    by_cases hn : n ∈ recognisedTypeNames
    · rw [recognisedTypeNames_eq, List.mem_map] at hn
      obtain ⟨p, hp, hpn⟩ := hn
      have hp2 := typeOfName_of_alias p hp
      rw [hpn, h] at hp2
      cases hp2
      cases p
      cases hpn
      exact hp
    · rw [typeOfName_none_of_unrecognised n hn] at h
      cases h
  · intro h
    exact typeOfName_of_alias (n, dt) h

theorem ParseDataType_ok_iff (s : String) (dt : DataType) :
    ParseDataType s = .ok dt ↔ typeOfName (splitFirst s) = some dt := by
  unfold ParseDataType
  dsimp only
  cases typeOfName (splitFirst s) with
  | none => exact ⟨fun h => (by cases h), fun h => (by cases h)⟩
  | some d =>
    constructor
    · intro h
      cases h
      rfl
    · intro h
      cases h
      rfl

/-! ## Claims -/

/-- C1: for every DataType/ArrayType pair outside the legal set of the
dispatch table, and every name, direction flags and nested structure,
`CreateMayaAttribute` fails with an exception, so no attribute is returned. -/
theorem CreateMayaAttribute_illegal_pair_throws (name : String) (dataType : DataType)
    (dataTypeStr : String) (arrayType : ArrayType) (arrayTypeStr : String)
    (isInput isOutput : Bool) (compoundStructure : Variant)
    (h : LegalPair dataType arrayType = false) :
    ∃ msg, CreateMayaAttribute name dataType dataTypeStr arrayType arrayTypeStr
      isInput isOutput compoundStructure = .error (.exception msg) := by
  have hnot : ¬ (dataType = .DT_CompoundParam ∧ arrayType ≠ .AT_Array_Native) := by
    rintro ⟨hd, ha⟩
    subst hd
    cases arrayType <;> simp [LegalPair] at h ha
  obtain ⟨msg, hmsg⟩ := createLeafObject_illegal name dataType dataTypeStr arrayType
    arrayTypeStr isInput isOutput compoundStructure h
  refine ⟨msg, ?_⟩
  rw [CreateMayaAttribute.eq_def, if_neg hnot, hmsg]

/-- Witness for C1: Boolean requested as a native array is refused. -/
theorem CreateMayaAttribute_illegal_pair_throws_witness :
    LegalPair .DT_Boolean .AT_Array_Native = false ∧
    ∃ msg, CreateMayaAttribute "flag" .DT_Boolean "Boolean" .AT_Array_Native "Array (Native)"
      true false .null = .error (.exception msg) :=
  ⟨by decide, CreateMayaAttribute_illegal_pair_throws "flag" .DT_Boolean "Boolean"
    .AT_Array_Native "Array (Native)" true false .null (by decide)⟩

/-- C2 (the code at the failing input): for Boolean with Array-Native the
generic incompatibility error is raised, and its message repeats the data-type
string where the array-type string should stand, so the array-type string
"Array (Native)" does not occur in it. -/
theorem incompatible_message_omits_array_type :
    CreateMayaAttribute "flag" .DT_Boolean "Boolean" .AT_Array_Native "Array (Native)"
        true false .null
      = .error (.exception "DataType 'Boolean' incompatible with ArrayType 'Boolean'") ∧
    ¬ Mentions "DataType 'Boolean' incompatible with ArrayType 'Boolean'" "Array (Native)" := by
  constructor
  · rfl
  · decide

/-- C3: Curve with Array-Multi fails with a message that differs from the
generic incompatibility message for the same strings and names Curves as the
type to use; Curves with Single fails with a message that differs from the
generic one and names Curve as the type to use; for every name, pair of type
strings, direction flags and nested structure. -/
theorem CreateMayaAttribute_curve_mismatch (name dataTypeStr arrayTypeStr : String)
    (isInput isOutput : Bool) (compoundStructure : Variant) :
    (∃ msg, CreateMayaAttribute name .DT_Curve dataTypeStr .AT_Array_Multi arrayTypeStr
        isInput isOutput compoundStructure = .error (.exception msg) ∧
      msg ≠ incompatibleMessage dataTypeStr arrayTypeStr ∧
      Mentions msg "'Curves' should be used instead") ∧
    (∃ msg, CreateMayaAttribute name .DT_Curves dataTypeStr .AT_Single arrayTypeStr
        isInput isOutput compoundStructure = .error (.exception msg) ∧
      msg ≠ incompatibleMessage dataTypeStr arrayTypeStr ∧
      Mentions msg "'Curve' should be used instead") := by
  constructor
  · refine ⟨_, by rw [CreateMayaAttribute.eq_def]; rfl, ?_, ?_⟩
    · intro h
      have h2 := congrArg (fun s : String => s.data.getLast?) h
      simp only [incompatibleMessage_getLast] at h2
      revert h2
      decide
    · exact mentions_of_eq "DataType 'Curve' is not compatible with Array type, " "" rfl
  · refine ⟨_, by rw [CreateMayaAttribute.eq_def]; rfl, ?_, ?_⟩
    · intro h
      have h2 := congrArg (fun s : String => s.data.getLast?) h
      simp only [incompatibleMessage_getLast] at h2
      revert h2
      decide
    · exact mentions_of_eq "DataType 'Curves' is only compatible with Array type, " "" rfl


/-- C4 (counterexample): three pairwise different unrecognised names
("Execute", "ManipHandle", "DrawingHandle") make `ParseDataType` throw with an
empty message, so the strings with an empty message are not exactly two. -/
theorem ParseDataType_silent_names_not_two :
    ParseDataType "Execute" = .error (.exception "") ∧
    ParseDataType "ManipHandle" = .error (.exception "") ∧
    ParseDataType "DrawingHandle" = .error (.exception "") ∧
    ¬ ∃ a b : String, ∀ s : String,
        (splitFirst s ∉ recognisedTypeNames ∧ ParseDataType s = .error (.exception ""))
          ↔ (s = a ∨ s = b) := by
  have e1 : ParseDataType "Execute" = .error (.exception "") := rfl
  have e2 : ParseDataType "ManipHandle" = .error (.exception "") := rfl
  have e3 : ParseDataType "DrawingHandle" = .error (.exception "") := rfl
  refine ⟨e1, e2, e3, ?_⟩
  rintro ⟨a, b, hab⟩
  have h1 := (hab "Execute").1 ⟨by decide, e1⟩
  have h2 := (hab "ManipHandle").1 ⟨by decide, e2⟩
  have h3 := (hab "DrawingHandle").1 ⟨by decide, e3⟩
  rcases h1 with h1 | h1 <;> rcases h2 with h2 | h2 <;> rcases h3 with h3 | h3 <;>
    first
    | exact absurd (h1.trans h2.symm) (by decide)
    | exact absurd (h1.trans h3.symm) (by decide)
    | exact absurd (h2.trans h3.symm) (by decide)

/-- C4 (amended): `ParseDataType` fails on every string whose part before the
first bracket is not a recognised type name; the message is empty exactly for
the three names "Execute", "ManipHandle" and "DrawingHandle" (which are
pairwise different and unrecognised), and for every other unrecognised string
the message is non-empty and contains the given string. -/
theorem ParseDataType_unrecognised_fails (s : String)
    (h : splitFirst s ∉ recognisedTypeNames) :
    (∃ msg, ParseDataType s = .error (.exception msg) ∧
      (msg = "" ↔ s = "Execute" ∨ s = "ManipHandle" ∨ s = "DrawingHandle") ∧
      (msg ≠ "" → Mentions msg s)) ∧
    ["Execute", "ManipHandle", "DrawingHandle"].Nodup ∧
    (∀ x ∈ ["Execute", "ManipHandle", "DrawingHandle"],
      splitFirst x ∉ recognisedTypeNames) := by
  refine ⟨⟨invalidDataTypeMessage s, ParseDataType_of_unrecognised s h, ?_, ?_⟩, by decide,
    by decide⟩
  · by_cases hs : s = "Execute" ∨ s = "ManipHandle" ∨ s = "DrawingHandle"
    · simp only [invalidDataTypeMessage_silent s hs, hs]
    · rw [invalidDataTypeMessage_loud s hs]
      simp only [hs, iff_false]
      exact quoted_ne_empty _ _
  · intro hne
    by_cases hs : s = "Execute" ∨ s = "ManipHandle" ∨ s = "DrawingHandle"
    · exact absurd (invalidDataTypeMessage_silent s hs) hne
    · rw [invalidDataTypeMessage_loud s hs]
      exact mentions_of_eq "Unhandled DataType '" "'" rfl

/-- Witness for C4: the unrecognised name "Matrix" and its array form. -/
theorem ParseDataType_unrecognised_fails_witness :
    splitFirst "Matrix[]" ∉ recognisedTypeNames ∧
    ((∃ msg, ParseDataType "Matrix[]" = .error (.exception msg) ∧
      (msg = "" ↔ "Matrix[]" = "Execute" ∨ "Matrix[]" = "ManipHandle" ∨
        "Matrix[]" = "DrawingHandle") ∧
      (msg ≠ "" → Mentions msg "Matrix[]")) ∧
    ["Execute", "ManipHandle", "DrawingHandle"].Nodup ∧
    (∀ x ∈ ["Execute", "ManipHandle", "DrawingHandle"],
      splitFirst x ∉ recognisedTypeNames)) :=
  ⟨by decide, ParseDataType_unrecognised_fails "Matrix[]" (by decide)⟩

/-- C5: `ParseArrayType` maps the three labels "Single Value", "Array (Multi)"
and "Array (Native)" to their cardinalities; every other string fails with an
"Unrecognized ArrayType" error whose message contains the string; so it
succeeds exactly on the three labels. -/
theorem ParseArrayType_spec (s : String) :
    ParseArrayType "Single Value" = .ok .AT_Single ∧
    ParseArrayType "Array (Multi)" = .ok .AT_Array_Multi ∧
    ParseArrayType "Array (Native)" = .ok .AT_Array_Native ∧
    (¬ (s = "Single Value" ∨ s = "Array (Multi)" ∨ s = "Array (Native)") →
      ∃ msg, ParseArrayType s = .error (.exception msg) ∧
        Mentions msg "Unrecognized ArrayType" ∧ Mentions msg s) ∧
    ((∃ a, ParseArrayType s = .ok a) ↔
      (s = "Single Value" ∨ s = "Array (Multi)" ∨ s = "Array (Native)")) := by
  have hfail : ¬ (s = "Single Value" ∨ s = "Array (Multi)" ∨ s = "Array (Native)") →
      ParseArrayType s = .error (.exception (invalidArrayTypeMessage s)) := by
    intro hs
    simp only [not_or] at hs
    unfold ParseArrayType
    rw [if_neg hs.1, if_neg hs.2.1, if_neg hs.2.2]
    rfl
  refine ⟨rfl, rfl, rfl, ?_, ?_⟩
  · intro hs
    refine ⟨_, hfail hs, ?_, ?_⟩
    · exact mentions_of_eq "" (" '" ++ s ++ "'") (by
        unfold invalidArrayTypeMessage
        apply String.ext
        simp [String.data_append])
    · exact mentions_of_eq "Unrecognized ArrayType '" "'" rfl
  · constructor
    · rintro ⟨a, ha⟩
      by_contra hs
      rw [hfail hs] at ha
      cases ha
    · rintro (h | h | h) <;> subst h
      · exact ⟨_, rfl⟩
      · exact ⟨_, rfl⟩
      · exact ⟨_, rfl⟩

/-- Witness for C5: the label "Array" alone is not recognised. -/
theorem ParseArrayType_spec_witness :
    ¬ ("Array" = "Single Value" ∨ "Array" = "Array (Multi)" ∨ "Array" = "Array (Native)") ∧
    ∃ msg, ParseArrayType "Array" = .error (.exception msg) ∧
      Mentions msg "Unrecognized ArrayType" ∧ Mentions msg "Array" :=
  ⟨by decide, (ParseArrayType_spec "Array").2.2.2.1 (by decide)⟩


/-- C6: `ParseDataType` ignores the array suffix: when `s` contains no
bracket, parsing `s` followed by a bracket and any text succeeds exactly when
parsing `s` succeeds, with the same DataType. -/
theorem ParseDataType_ignores_suffix (s t : String) (h : hasBracket s = false)
    (dt : DataType) :
    ParseDataType (s ++ "[" ++ t) = .ok dt ↔ ParseDataType s = .ok dt :=
  ParseDataType_ok_congr _ _
    ((splitFirst_append_bracket s t h).trans (splitFirst_of_no_bracket s h).symm) dt

/-- Witness for C6: "Integer[]" and "Integer" both parse to `DT_Integer`. -/
theorem ParseDataType_ignores_suffix_witness :
    hasBracket "Integer" = false ∧
    ParseDataType "Integer" = .ok .DT_Integer ∧
    ParseDataType ("Integer" ++ "[" ++ "]") = .ok .DT_Integer :=
  ⟨by decide, rfl,
    (ParseDataType_ignores_suffix "Integer" "]" (by decide) .DT_Integer).2 rfl⟩


/-- C7: for CompoundParam with Single or Array-Multi, `CreateMayaAttribute`
throws when the nested structure is null and throws, with a different message,
when it is non-null but not a dictionary, for every name, type strings and
direction flags; no attribute is returned. -/
theorem CreateMayaAttribute_compound_requires_dict (name dataTypeStr : String)
    (arrayType : ArrayType) (arrayTypeStr : String) (isInput isOutput : Bool)
    (compoundStructure : Variant)
    (hat : arrayType = .AT_Single ∨ arrayType = .AT_Array_Multi) :
    (compoundStructure = .null →
      CreateMayaAttribute name .DT_CompoundParam dataTypeStr arrayType arrayTypeStr
        isInput isOutput compoundStructure = .error (.exception
          "CompoundParam used for a maya attribute but no compound structure provided.")) ∧
    (compoundStructure ≠ .null → (∀ entries, compoundStructure ≠ .dict entries) →
      CreateMayaAttribute name .DT_CompoundParam dataTypeStr arrayType arrayTypeStr
        isInput isOutput compoundStructure = .error (.exception
          "CompoundParam used for a maya attribute but compound structure does not contain a dictionary.")) ∧
    ("CompoundParam used for a maya attribute but no compound structure provided." : String) ≠
      "CompoundParam used for a maya attribute but compound structure does not contain a dictionary." := by
  have hc : (DataType.DT_CompoundParam = DataType.DT_CompoundParam ∧
      arrayType ≠ ArrayType.AT_Array_Native) := by
    rcases hat with h | h <;> subst h <;> exact ⟨rfl, by decide⟩
  refine ⟨?_, ?_, by decide⟩
  · intro hnull
    subst hnull
    rw [CreateMayaAttribute.eq_def, if_pos hc]
  · intro hnn hnd
    rw [CreateMayaAttribute.eq_def, if_pos hc]
    cases compoundStructure <;> first
      | rfl
      | exact absurd rfl hnn
      | exact absurd rfl (hnd _)

/-- Witness for C7: a raw string given as the nested structure of an
Array-Multi compound. -/
theorem CreateMayaAttribute_compound_requires_dict_witness :
    CreateMayaAttribute "grp" .DT_CompoundParam "CompoundParam" .AT_Array_Multi
      "Array (Multi)" true false (.string "Scalar") = .error (.exception
        "CompoundParam used for a maya attribute but compound structure does not contain a dictionary.") :=
  (CreateMayaAttribute_compound_requires_dict "grp" "CompoundParam" .AT_Array_Multi
    "Array (Multi)" true false (.string "Scalar") (Or.inr rfl)).2.1
    (fun h => by cases h) (fun _ h => by cases h)

/-- C8 (counterexample): the only entry of `nestedUnknownEntries` is a
dictionary whose `dataType` string "CompoundParam" parses and is legal for
Single, yet the build fails, because the entry is expanded as a nested
structure and holds an entry of unknown type. -/
theorem typed_legal_entries_can_fail :
    (∀ e ∈ nestedUnknownEntries, e.2.isNull = false →
      ∃ es s dt, e.2 = .dict es ∧ getDictValue "dataType" es = some (.string s) ∧
        ParseDataType s = .ok dt ∧ LegalPair dt (inferredArrayType s) = true) ∧
    CreateMayaAttribute "grp" .DT_CompoundParam "CompoundParam" .AT_Single "Single Value"
      true false (.dict nestedUnknownEntries)
      = .error (.exception "Unhandled DataType 'Bogus'") := by
  refine ⟨?_, rfl⟩
  intro e he _
  simp only [nestedUnknownEntries, List.mem_singleton] at he
  subst he
  exact ⟨_, "CompoundParam", .DT_CompoundParam, rfl, rfl, rfl, rfl⟩

/-- C8 (amended): for a dictionary nested structure with at least one non-null
entry, whose non-null entries are all dictionaries carrying a string
`dataType` field that parses and is legal for the cardinality inferred from it
(and, where it parses to CompoundParam, whose own expansion succeeds),
`CreateMayaAttribute` for CompoundParam with Single or Array-Multi returns one
compound attribute, named by the call, whose children are in iteration order
exactly one per non-null entry: the attribute built under the entry's key for
the parsed DataType and the inferred cardinality, named by the key, with array
mode on exactly when the type string contains a bracket. -/
theorem CreateMayaAttribute_compound_children (name dataTypeStr : String)
    (arrayType : ArrayType) (arrayTypeStr : String) (isInput isOutput : Bool)
    (entries : List (String × Variant))
    (hat : arrayType = .AT_Single ∨ arrayType = .AT_Array_Multi)
    (hne : ∃ e ∈ entries, e.2.isNull = false)
    (hall : ∀ e ∈ entries, e.2.isNull = false →
      ∃ es s dt, e.2 = .dict es ∧ getDictValue "dataType" es = some (.string s) ∧
        ParseDataType s = .ok dt ∧ LegalPair dt (inferredArrayType s) = true ∧
        (dt = .DT_CompoundParam →
          ∃ c, CreateMayaAttribute e.1 dt s (inferredArrayType s) (inferredArrayTypeStr s)
            isInput isOutput e.2 = .ok c)) :
    ∃ a, CreateMayaAttribute name .DT_CompoundParam dataTypeStr arrayType arrayTypeStr
        isInput isOutput (.dict entries) = .ok a ∧
      a.kind = .compound ∧ a.name = name ∧
      List.Forall₂
        (fun e child => ∃ es s dt, e.2 = .dict es ∧
          getDictValue "dataType" es = some (.string s) ∧ ParseDataType s = .ok dt ∧
          CreateMayaAttribute e.1 dt s (inferredArrayType s) (inferredArrayTypeStr s)
            isInput isOutput e.2 = .ok child ∧
          child.name = e.1 ∧ child.props.array = some (hasBracket s))
        (entries.filter (fun e => !e.2.isNull)) a.children := by
  have hall2 : ∀ e ∈ entries, e.2.isNull = false →
      ∃ child, BuildsTyped isInput isOutput e child := by
    intro e he hnn
    obtain ⟨es, s, dt, h1, h2, h3, h4, h5⟩ := hall e he hnn
    by_cases hd : dt = .DT_CompoundParam
    · obtain ⟨c, hc⟩ := h5 hd
      exact ⟨c, es, s, dt, h1, h2, h3, hc⟩
    · obtain ⟨c, hc⟩ := CreateMayaAttribute_legal_leaf e.1 dt s (inferredArrayType s)
        (inferredArrayTypeStr s) isInput isOutput e.2 hd h4
      exact ⟨c, es, s, dt, h1, h2, h3, hc⟩
  obtain ⟨cs, hcs, hloop⟩ := compoundLoop_typed name isInput isOutput entries [] none hall2
  have hnonempty : (entries.filter (fun e => !e.2.isNull)).isEmpty = false := by
    obtain ⟨e, he, hnn⟩ := hne
    have hmem : e ∈ entries.filter (fun e => !e.2.isNull) :=
      List.mem_filter.mpr ⟨he, by simp [hnn]⟩
    cases hfl : entries.filter (fun e => !e.2.isNull) with
    | nil => rw [hfl] at hmem; cases hmem
    | cons x xs => rfl
  have hc : (DataType.DT_CompoundParam = DataType.DT_CompoundParam ∧
      arrayType ≠ ArrayType.AT_Array_Native) := by
    rcases hat with h | h <;> subst h <;> exact ⟨rfl, by decide⟩
  refine ⟨SetupMayaAttribute (createCompound name cs) .DT_CompoundParam dataTypeStr arrayType
    arrayTypeStr isInput isOutput, ?_, ?_, ?_, ?_⟩
  · rw [CreateMayaAttribute.eq_def, if_pos hc]
    dsimp only
    rw [hloop, hnonempty]
    rfl
  · unfold SetupMayaAttribute
    rw [kind_withProps]
    rfl
  · rw [name_SetupMayaAttribute]
    rfl
  · have hch : (SetupMayaAttribute (createCompound name cs) .DT_CompoundParam dataTypeStr
        arrayType arrayTypeStr isInput isOutput).children = cs := by
      unfold SetupMayaAttribute
      rw [children_withProps]
      rfl
    rw [hch]
    refine List.Forall₂.imp ?_ hcs
    rintro e child ⟨es, s, dt, h1, h2, h3, h4⟩
    refine ⟨es, s, dt, h1, h2, h3, h4, CreateMayaAttribute_name _ _ _ _ _ _ _ _ _ h4, ?_⟩
    rw [CreateMayaAttribute_array _ _ _ _ _ _ _ _ _ h4, inferredArrayType_multi_iff]


/-- Witness for C8: the nested structure with entry "a" of type "Scalar" and
entry "b" of type "Integer[]" gives a compound with two children, "a" a single
double and "b" an integer in array mode. -/
theorem CreateMayaAttribute_compound_children_witness :
    (∃ a, CreateMayaAttribute "grp" .DT_CompoundParam "CompoundParam" .AT_Single
        "Single Value" true false (.dict typedEntries) = .ok a ∧
      a.kind = .compound ∧ a.name = "grp" ∧
      List.Forall₂
        (fun e child => ∃ es s dt, e.2 = .dict es ∧
          getDictValue "dataType" es = some (.string s) ∧ ParseDataType s = .ok dt ∧
          CreateMayaAttribute e.1 dt s (inferredArrayType s) (inferredArrayTypeStr s)
            true false e.2 = .ok child ∧
          child.name = e.1 ∧ child.props.array = some (hasBracket s))
        (typedEntries.filter (fun e => !e.2.isNull)) a.children) ∧
    (CreateMayaAttribute "grp" .DT_CompoundParam "CompoundParam" .AT_Single
        "Single Value" true false (.dict typedEntries)).toOption.map
      (fun a => a.children.map (fun c => (c.name, c.kind, c.props.array)))
      = some [("a", AttrKind.numeric .kDouble, some false),
              ("b", AttrKind.numeric .kInt, some true)] := by
  refine ⟨CreateMayaAttribute_compound_children "grp" "CompoundParam" .AT_Single
    "Single Value" true false typedEntries (Or.inl rfl)
    ⟨("a", .dict [("dataType", .string "Scalar")]), by simp [typedEntries], rfl⟩ ?_, rfl⟩
  intro e he _
  simp only [typedEntries, List.mem_cons, List.mem_singleton, List.not_mem_nil,
    or_false] at he
  rcases he with he | he <;> subst he
  · exact ⟨_, "Scalar", .DT_Scalar, rfl, rfl, rfl, rfl, fun h => by cases h⟩
  · exact ⟨_, "Integer[]", .DT_Integer, rfl, rfl, rfl, rfl, fun h => by cases h⟩

/-- C9 (the code at the failing inputs): for an empty dictionary, and for a
dictionary whose only entry is null, the loop never creates the compound, so
`obj` is still null when the assertion is reached and the call fails there
instead of returning a compound attribute. -/
theorem CreateMayaAttribute_empty_dict_assert_fails :
    CreateMayaAttribute "grp" .DT_CompoundParam "CompoundParam" .AT_Single "Single Value"
      true false (.dict []) = .error .assertFailed ∧
    CreateMayaAttribute "grp" .DT_CompoundParam "CompoundParam" .AT_Single "Single Value"
      true false (.dict [("a", .null)]) = .error .assertFailed ∧
    CreateMayaAttribute "grp" .DT_CompoundParam "CompoundParam" .AT_Array_Multi
      "Array (Multi)" true false (.dict []) = .error .assertFailed :=
  ⟨rfl, rfl, rfl⟩

/-- C11: when the options give uiMin >= uiMax (values read by
`GetScalarOption`), `ApplyMinMax` calls none of the four range setters,
whatever uiSoftMin and uiSoftMax are: the attribute is returned exactly as it
was given, and the Integer and Scalar attributes built with Single or
Array-Multi carry no bound at all. -/
theorem ApplyMinMax_degenerate_range (attr : MayaAttr) (name dataTypeStr : String)
    (arrayType : ArrayType) (arrayTypeStr : String) (isInput isOutput : Bool)
    (options : Variant)
    (hat : arrayType = .AT_Single ∨ arrayType = .AT_Array_Multi)
    (h : GetScalarOption "uiMax" options ≤ GetScalarOption "uiMin" options) :
    ApplyMinMax attr options = attr ∧
    ∀ dataType, dataType = DataType.DT_Integer ∨ dataType = DataType.DT_Scalar →
      ∃ a, CreateMayaAttribute name dataType dataTypeStr arrayType arrayTypeStr
          isInput isOutput options = .ok a ∧ NoBounds a := by
  have hn : ¬ GetScalarOption "uiMin" options < GetScalarOption "uiMax" options :=
    FloatValue.not_lt_of_le h
  refine ⟨ApplyMinMax_of_not_lt attr options hn, ?_⟩
  intro dataType hdt
  rcases hdt with hdt | hdt <;> subst hdt
  · refine ⟨_, CreateMayaAttribute_integer name dataTypeStr arrayType arrayTypeStr
      isInput isOutput options hat, SetupMayaAttribute_keeps_bounds _ _ _ _ _ _ _ ?_⟩
    rw [ApplyMinMax_of_not_lt _ options hn]
    exact ⟨rfl, rfl, rfl, rfl⟩
  · exact ⟨_, CreateMayaAttribute_scalar name dataTypeStr arrayType arrayTypeStr
      isInput isOutput options hat,
      SetupMayaAttribute_keeps_bounds _ _ _ _ _ _ _ (scalarAttr_noBounds name options hn)⟩

/-- Witness for C11: uiMin = 10 and uiMax = 5 with the valid soft range
[2, 8] leave a fresh integer attribute untouched, and the built Scalar
attribute has no bound. -/
theorem ApplyMinMax_degenerate_range_witness :
    GetScalarOption "uiSoftMin" degenerateRangeOptions
      < GetScalarOption "uiSoftMax" degenerateRangeOptions ∧
    ApplyMinMax (freshAttr "x" (.numeric .kInt)) degenerateRangeOptions
      = freshAttr "x" (.numeric .kInt) ∧
    ∃ a, CreateMayaAttribute "x" .DT_Scalar "Scalar" .AT_Single "Single Value"
        true false degenerateRangeOptions = .ok a ∧ NoBounds a :=
  ⟨by decide!,
   (ApplyMinMax_degenerate_range (freshAttr "x" (.numeric .kInt)) "x" "Scalar" .AT_Single
      "Single Value" true false degenerateRangeOptions (Or.inl rfl) (by decide!)).1,
   (ApplyMinMax_degenerate_range (freshAttr "x" (.numeric .kInt)) "x" "Scalar" .AT_Single
      "Single Value" true false degenerateRangeOptions (Or.inl rfl) (by decide!)).2
      .DT_Scalar (Or.inr rfl)⟩

/-- C12: for Scalar with Single or Array-Multi the built attribute is a unit
attribute of kind time, angle or distance when the `scalarUnit` option is the
string "time", "angle" or "distance", and a plain double otherwise; the option
reads as the empty string, hence selects the plain double, when the options
are not a dictionary, the key is absent or its value is not a string. With
Array-Native the result is a native double array whatever the options are. -/
theorem scalar_unit_selection (name dataTypeStr : String) (arrayType : ArrayType)
    (arrayTypeStr : String) (isInput isOutput : Bool) (options : Variant)
    (hat : arrayType = .AT_Single ∨ arrayType = .AT_Array_Multi) :
    (∃ a, CreateMayaAttribute name .DT_Scalar dataTypeStr arrayType arrayTypeStr
        isInput isOutput options = .ok a ∧
      (GetStringOption "scalarUnit" options = "time" → a.kind = .unit .kTime) ∧
      (GetStringOption "scalarUnit" options = "angle" → a.kind = .unit .kAngle) ∧
      (GetStringOption "scalarUnit" options = "distance" → a.kind = .unit .kDistance) ∧
      (GetStringOption "scalarUnit" options ≠ "time" →
        GetStringOption "scalarUnit" options ≠ "angle" →
        GetStringOption "scalarUnit" options ≠ "distance" → a.kind = .numeric .kDouble)) ∧
    (∃ b, CreateMayaAttribute name .DT_Scalar dataTypeStr .AT_Array_Native arrayTypeStr
        isInput isOutput options = .ok b ∧ b.kind = .typed .kDoubleArray) ∧
    ((∀ entries, options ≠ .dict entries) → GetStringOption "scalarUnit" options = "") ∧
    (∀ entries, options = .dict entries →
      (∀ u, getDictValue "scalarUnit" entries = some (.string u) →
        GetStringOption "scalarUnit" options = u) ∧
      ((∀ u, getDictValue "scalarUnit" entries ≠ some (.string u)) →
        GetStringOption "scalarUnit" options = "")) := by
  refine ⟨⟨_, CreateMayaAttribute_scalar name dataTypeStr arrayType arrayTypeStr
    isInput isOutput options hat, ?_, ?_, ?_, ?_⟩,
    ⟨SetupMayaAttribute (freshAttr name (.typed .kDoubleArray)) .DT_Scalar dataTypeStr
      .AT_Array_Native arrayTypeStr isInput isOutput, ?_, ?_⟩, ?_, ?_⟩
  · intro h
    rw [kind_SetupMayaAttribute, kind_scalarAttr, if_pos h]
  · intro h
    rw [kind_SetupMayaAttribute, kind_scalarAttr, h]
    rfl
  · intro h
    rw [kind_SetupMayaAttribute, kind_scalarAttr, h]
    rfl
  · intro h1 h2 h3
    rw [kind_SetupMayaAttribute, kind_scalarAttr, if_neg h1, if_neg h2, if_neg h3]
  · rw [CreateMayaAttribute.eq_def, if_neg (by simp)]
    rfl
  · rw [kind_SetupMayaAttribute]
    rfl
  · intro hnd
    cases options <;> first
      | rfl
      | exact absurd rfl (hnd _)
  · intro entries he
    subst he
    constructor
    · intro u hu
      simp only [GetStringOption, hu]
    · intro hu
      unfold GetStringOption
      dsimp only
      split
      · rename_i s hs
        exact absurd hs (hu s)
      · rfl

/-- Witness for C12: the option `scalarUnit = "angle"` gives an angle unit
attribute for a single Scalar. -/
theorem scalar_unit_selection_witness :
    ∃ a, CreateMayaAttribute "rot" .DT_Scalar "Scalar" .AT_Single "Single Value"
        true false angleOptions = .ok a ∧ a.kind = .unit .kAngle := by
  obtain ⟨⟨a, ha, _, hangle, _⟩, _⟩ := scalar_unit_selection "rot" "Scalar" .AT_Single
    "Single Value" true false angleOptions (Or.inl rfl)
  exact ⟨a, ha, hangle rfl⟩

/-- C13: for every name, Vec3 and Euler with Single or Array-Multi give one
parent attribute of that name with exactly three children named by the name
suffixed X, Y and Z, in that order; the Vec3 children are plain doubles and
the Euler children are angle unit attributes. -/
theorem xyz_children (name dataTypeStr : String) (arrayType : ArrayType)
    (arrayTypeStr : String) (isInput isOutput : Bool) (compoundStructure : Variant)
    (hat : arrayType = .AT_Single ∨ arrayType = .AT_Array_Multi) :
    (∃ a, CreateMayaAttribute name .DT_Vec3 dataTypeStr arrayType arrayTypeStr
        isInput isOutput compoundStructure = .ok a ∧ a.name = name ∧
      a.children.map MayaAttr.name = [name ++ "X", name ++ "Y", name ++ "Z"] ∧
      a.children.map MayaAttr.kind
        = [.numeric .kDouble, .numeric .kDouble, .numeric .kDouble]) ∧
    (∃ a, CreateMayaAttribute name .DT_Euler dataTypeStr arrayType arrayTypeStr
        isInput isOutput compoundStructure = .ok a ∧ a.name = name ∧
      a.children.map MayaAttr.name = [name ++ "X", name ++ "Y", name ++ "Z"] ∧
      a.children.map MayaAttr.kind = [.unit .kAngle, .unit .kAngle, .unit .kAngle]) := by
  constructor
  · refine ⟨SetupMayaAttribute (createNumeric3 name
      (xyzChild name "X" (.numeric .kDouble) isInput isOutput)
      (xyzChild name "Y" (.numeric .kDouble) isInput isOutput)
      (xyzChild name "Z" (.numeric .kDouble) isInput isOutput))
      .DT_Vec3 dataTypeStr arrayType arrayTypeStr isInput isOutput, ?_, ?_, ?_, ?_⟩
    · rw [CreateMayaAttribute.eq_def, if_neg (by simp)]
      rcases hat with hat | hat <;> subst hat <;> rfl
    · simp
    · rw [children_SetupMayaAttribute]
      show List.map MayaAttr.name [_, _, _] = _
      simp [xyzChild]
    · rw [children_SetupMayaAttribute]
      show List.map MayaAttr.kind [_, _, _] = _
      simp [xyzChild]
  · refine ⟨SetupMayaAttribute (createNumeric3 name
      (xyzChild name "X" (.unit .kAngle) isInput isOutput)
      (xyzChild name "Y" (.unit .kAngle) isInput isOutput)
      (xyzChild name "Z" (.unit .kAngle) isInput isOutput))
      .DT_Euler dataTypeStr arrayType arrayTypeStr isInput isOutput, ?_, ?_, ?_, ?_⟩
    · rw [CreateMayaAttribute.eq_def, if_neg (by simp)]
      rcases hat with hat | hat <;> subst hat <;> rfl
    · simp
    · rw [children_SetupMayaAttribute]
      show List.map MayaAttr.name [_, _, _] = _
      simp [xyzChild]
    · rw [children_SetupMayaAttribute]
      show List.map MayaAttr.kind [_, _, _] = _
      simp [xyzChild]

/-- Witness for C13: a single Vec3 named "pos". -/
theorem xyz_children_witness :
    ∃ a, CreateMayaAttribute "pos" .DT_Vec3 "Vec3" .AT_Single "Single Value"
        true false .null = .ok a ∧ a.name = "pos" ∧
      a.children.map MayaAttr.name = ["pos" ++ "X", "pos" ++ "Y", "pos" ++ "Z"] ∧
      a.children.map MayaAttr.kind
        = [.numeric .kDouble, .numeric .kDouble, .numeric .kDouble] :=
  (xyz_children "pos" "Vec3" .AT_Single "Single Value" true false .null (Or.inl rfl)).1

/-- C14: for each of PolygonMesh, Curves, Curve, Lines and SpliceMayaData,
every cardinality legal for it and every isInput and isOutput, the call
succeeds and the returned attribute has storable = false and
keyable = false. -/
theorem complex_types_not_storable (name : String) (dataType : DataType)
    (dataTypeStr : String) (arrayType : ArrayType) (arrayTypeStr : String)
    (isInput isOutput : Bool) (compoundStructure : Variant)
    (hdt : dataType = .DT_PolygonMesh ∨ dataType = .DT_Curves ∨ dataType = .DT_Curve ∨
      dataType = .DT_Lines ∨ dataType = .DT_SpliceMayaData)
    (hlegal : LegalPair dataType arrayType = true) :
    ∃ a, CreateMayaAttribute name dataType dataTypeStr arrayType arrayTypeStr
        isInput isOutput compoundStructure = .ok a ∧
      a.props.storable = some false ∧ a.props.keyable = some false := by
  have hd : dataType ≠ .DT_CompoundParam := by
    rcases hdt with h | h | h | h | h <;> subst h <;> decide
  have hcx : isComplexType dataType = true := by
    rcases hdt with h | h | h | h | h <;> subst h <;> rfl
  obtain ⟨a, ha⟩ := CreateMayaAttribute_legal_leaf name dataType dataTypeStr arrayType
    arrayTypeStr isInput isOutput compoundStructure hd hlegal
  obtain ⟨attr, hattr⟩ := CreateMayaAttribute_ok_setup _ _ _ _ _ _ _ _ _ ha
  refine ⟨a, ha, ?_, ?_⟩
  · rw [hattr, (SetupMayaAttribute_storable _ _ _ _ _ _ _).1, hcx]
    rfl
  · rw [hattr, (SetupMayaAttribute_storable _ _ _ _ _ _ _).2, hcx]
    rfl

/-- Witness for C14: a Curves array requested as a pure input. -/
theorem complex_types_not_storable_witness :
    ∃ a, CreateMayaAttribute "crv" .DT_Curves "Curves" .AT_Array_Multi "Array (Multi)"
        true false .null = .ok a ∧
      a.props.storable = some false ∧ a.props.keyable = some false :=
  complex_types_not_storable "crv" .DT_Curves "Curves" .AT_Array_Multi "Array (Multi)"
    true false .null (Or.inr (Or.inl rfl)) rfl

/-- C16: on every successful call the array-mode flags of the returned
attribute follow the cardinality: array is true exactly for Array-Multi, and
usesArrayDataBuilder is true exactly for Array-Multi with a DataType other
than KeyframeTrack. -/
theorem array_flags_follow_cardinality (name : String) (dataType : DataType)
    (dataTypeStr : String) (arrayType : ArrayType) (arrayTypeStr : String)
    (isInput isOutput : Bool) (compoundStructure : Variant) (a : MayaAttr)
    (h : CreateMayaAttribute name dataType dataTypeStr arrayType arrayTypeStr
      isInput isOutput compoundStructure = .ok a) :
    a.props.array = some (decide (arrayType = .AT_Array_Multi)) ∧
    a.props.usesArrayDataBuilder
      = some (decide (arrayType = .AT_Array_Multi ∧ dataType ≠ .DT_KeyframeTrack)) := by
  obtain ⟨attr, hattr⟩ := CreateMayaAttribute_ok_setup _ _ _ _ _ _ _ _ _ h
  rw [hattr]
  exact ⟨SetupMayaAttribute_array _ _ _ _ _ _ _, SetupMayaAttribute_builder _ _ _ _ _ _ _⟩

/-- Witness for C16: a KeyframeTrack array is an array attribute without the
array data builder. -/
theorem array_flags_follow_cardinality_witness :
    ∃ a, CreateMayaAttribute "trk" .DT_KeyframeTrack "KeyframeTrack" .AT_Array_Multi
        "Array (Multi)" true false .null = .ok a ∧
      a.props.array = some true ∧ a.props.usesArrayDataBuilder = some false :=
  ⟨_, rfl, array_flags_follow_cardinality "trk" .DT_KeyframeTrack "KeyframeTrack"
    .AT_Array_Multi "Array (Multi)" true false .null _ rfl⟩

/-- C20 (counterexample): the options hold no uiMin and the numeric uiMax
`1e-60 > 0` (a double). Converted to `float` it reads 0, so uiMin < uiMax fails
and no bound is set, instead of the hard bounds [0, uiMax]. -/
theorem tiny_uiMax_sets_no_bound :
    getDictValue "uiMin" tinyMaxOptions = none ∧
    getDictValue "uiMax" tinyMaxOptions = some (.float64 (1 / 10 ^ 60)) ∧
    (Variant.float64 (1 / 10 ^ 60)).toScalar? = some (1 / 10 ^ 60) ∧
    (0 : Rat) < 1 / 10 ^ 60 ∧
    GetScalarOption "uiMax" (.dict tinyMaxOptions) = 0 ∧
    ApplyMinMax (freshAttr "x" (.numeric .kDouble)) (.dict tinyMaxOptions)
      = freshAttr "x" (.numeric .kDouble) := by
  refine ⟨rfl, rfl, rfl, by decide!, by decide!, ?_⟩
  exact ApplyMinMax_of_not_lt _ _ (by decide!)

/-- C20 (amended): `GetScalarOption` reads 0 when the options are not a
dictionary (null included), when the key is absent and when its value is not
numeric, and reads a numeric value converted to `float`; `ApplyMinMax` sets
the hard bounds exactly when the two readings satisfy uiMin < uiMax. Hence a
dictionary with no uiMin and a numeric uiMax whose float reading is above 0
gets the hard bounds [0, uiMax] (as read), one with no uiMax and a numeric
uiMin whose float reading is below 0 gets [uiMin, 0], and one with neither key
gets no bound. -/
theorem missing_range_key_reads_zero (attr : MayaAttr) (key : String) (options : Variant) :
    ((∀ entries, options ≠ .dict entries) → GetScalarOption key options = 0) ∧
    (∀ entries, options = .dict entries →
      (getDictValue key entries = none → GetScalarOption key options = 0) ∧
      (∀ v, getDictValue key entries = some v → v.toScalar? = none →
        GetScalarOption key options = 0) ∧
      (∀ v x, getDictValue key entries = some v → v.toScalar? = some x →
        GetScalarOption key options = castToFloat x)) ∧
    (GetScalarOption "uiMin" options < GetScalarOption "uiMax" options →
      (ApplyMinMax attr options).props.min = some (GetScalarOption "uiMin" options) ∧
      (ApplyMinMax attr options).props.max = some (GetScalarOption "uiMax" options)) ∧
    (¬ GetScalarOption "uiMin" options < GetScalarOption "uiMax" options →
      ApplyMinMax attr options = attr) ∧
    (∀ entries v hi, options = .dict entries → getDictValue "uiMin" entries = none →
      getDictValue "uiMax" entries = some v → v.toScalar? = some hi →
      0 < castToFloat hi →
      (ApplyMinMax attr options).props.min = some 0 ∧
      (ApplyMinMax attr options).props.max = some (castToFloat hi)) ∧
    (∀ entries v lo, options = .dict entries → getDictValue "uiMax" entries = none →
      getDictValue "uiMin" entries = some v → v.toScalar? = some lo →
      castToFloat lo < 0 →
      (ApplyMinMax attr options).props.min = some (castToFloat lo) ∧
      (ApplyMinMax attr options).props.max = some 0) ∧
    (∀ entries, options = .dict entries → getDictValue "uiMin" entries = none →
      getDictValue "uiMax" entries = none → ApplyMinMax attr options = attr) := by
  refine ⟨GetScalarOption_not_dict key options 0, ?_, ApplyMinMax_hard_bounds attr options,
    ApplyMinMax_of_not_lt attr options, ?_, ?_, ?_⟩
  · intro entries he
    subst he
    refine ⟨?_, ?_, ?_⟩
    · intro h
      rw [GetScalarOption_dict, h]
      rfl
    · intro v h hv
      rw [GetScalarOption_dict, h, Option.some_bind, hv]
      rfl
    · intro v x h hv
      rw [GetScalarOption_dict, h, Option.some_bind, hv]
      rfl
  · intro entries v hi he hmin hmax hv hpos
    subst he
    have e1 : GetScalarOption "uiMin" (.dict entries) = 0 := by
      rw [GetScalarOption_dict, hmin]
      rfl
    have e2 : GetScalarOption "uiMax" (.dict entries) = castToFloat hi := by
      rw [GetScalarOption_dict, hmax, Option.some_bind, hv]
      rfl
    have h := ApplyMinMax_hard_bounds attr (.dict entries) (by rw [e1, e2]; exact hpos)
    rw [e1, e2] at h
    exact h
  · intro entries v lo he hmax hmin hv hneg
    subst he
    have e1 : GetScalarOption "uiMin" (.dict entries) = castToFloat lo := by
      rw [GetScalarOption_dict, hmin, Option.some_bind, hv]
      rfl
    have e2 : GetScalarOption "uiMax" (.dict entries) = 0 := by
      rw [GetScalarOption_dict, hmax]
      rfl
    have h := ApplyMinMax_hard_bounds attr (.dict entries) (by rw [e1, e2]; exact hneg)
    rw [e1, e2] at h
    exact h
  · intro entries he hmin hmax
    subst he
    apply ApplyMinMax_of_not_lt
    rw [GetScalarOption_dict, GetScalarOption_dict, hmin, hmax]
    exact FloatValue.not_lt_self _

/-- Witness for C20: the options holding only uiMax = 7 give the hard bounds
[0, 7] on a fresh double attribute. -/
theorem missing_range_key_reads_zero_witness :
    (ApplyMinMax (freshAttr "x" (.numeric .kDouble)) (.dict maxOnlyOptions)).props.min
      = some 0 ∧
    (ApplyMinMax (freshAttr "x" (.numeric .kDouble)) (.dict maxOnlyOptions)).props.max
      = some 7 := by
  have h := (missing_range_key_reads_zero (freshAttr "x" (.numeric .kDouble)) "uiMin"
    (.dict maxOnlyOptions)).2.2.2.2.1 maxOnlyOptions (.float64 7) 7 rfl rfl rfl rfl
    (by decide!)
  rw [show castToFloat 7 = 7 from by decide!] at h
  exact h

/-- C17 (counterexample): a raw string stored under a key of the nested
structure is neither built as a nested compound nor does it make the build
fail: the call succeeds with a compound that has no child. -/
theorem raw_string_entry_contributes_nothing :
    ∃ a, CreateMayaAttribute "grp" .DT_CompoundParam "CompoundParam" .AT_Single
        "Single Value" true false (.dict rawStringEntries) = .ok a ∧
      a.kind = .compound ∧ a.children = [] :=
  ⟨_, rfl, rfl, rfl⟩

/-- C17 (amended): in the expansion, an entry whose value is a dictionary
without a string `dataType` field is built by recursing with
CompoundParam/Single on the entry's value: a failure of that call fails the
whole build, and on success the built compound, named by the key, is one of
the children. A non-null entry whose value is not a dictionary (a raw string,
say) contributes no child and does not fail the build: the loop only creates
the compound anew, and the result is the one built from the other entries. -/
theorem untyped_entries_in_expansion (name dataTypeStr : String) (arrayType : ArrayType)
    (arrayTypeStr : String) (isInput isOutput : Bool) (entries : List (String × Variant))
    (k : String) (hat : arrayType = .AT_Single ∨ arrayType = .AT_Array_Multi) :
    (∀ es rest acc obj, (∀ s, getDictValue "dataType" es ≠ some (.string s)) →
      compoundLoop name isInput isOutput ((k, .dict es) :: rest) acc obj =
        match CreateMayaAttribute k .DT_CompoundParam "CompoundParam" .AT_Single
            "Single Value" isInput isOutput (.dict es) with
        | .error e => .error e
        | .ok child =>
          compoundLoop name isInput isOutput rest (acc ++ [child])
            (some (createCompound name (acc ++ [child])))) ∧
    (∀ es, (k, Variant.dict es) ∈ entries →
      (∀ s, getDictValue "dataType" es ≠ some (.string s)) →
      (∀ e, CreateMayaAttribute k .DT_CompoundParam "CompoundParam" .AT_Single
          "Single Value" isInput isOutput (.dict es) = .error e →
        ∃ f, CreateMayaAttribute name .DT_CompoundParam dataTypeStr arrayType arrayTypeStr
          isInput isOutput (.dict entries) = .error f) ∧
      (∀ a, CreateMayaAttribute name .DT_CompoundParam dataTypeStr arrayType arrayTypeStr
          isInput isOutput (.dict entries) = .ok a →
        ∃ child ∈ a.children,
          CreateMayaAttribute k .DT_CompoundParam "CompoundParam" .AT_Single
            "Single Value" isInput isOutput (.dict es) = .ok child ∧
          child.kind = .compound ∧ child.name = k)) ∧
    (∀ v rest acc obj, v.isNull = false → (∀ es, v ≠ .dict es) →
      compoundLoop name isInput isOutput ((k, v) :: rest) acc obj =
        compoundLoop name isInput isOutput rest acc (some (createCompound name acc))) ∧
    (∀ pre post v, entries = pre ++ (k, v) :: post → v.isNull = false →
      (∀ es, v ≠ .dict es) →
      CreateMayaAttribute name .DT_CompoundParam dataTypeStr arrayType arrayTypeStr
          isInput isOutput (.dict entries) =
        match collectChildren isInput isOutput (pre ++ post) with
        | .error e => .error e
        | .ok cs => .ok (SetupMayaAttribute (createCompound name cs) .DT_CompoundParam
            dataTypeStr arrayType arrayTypeStr isInput isOutput)) := by
  refine ⟨?_, ?_, ?_, ?_⟩
  · intro es rest acc obj hget
    rw [compoundLoop_dict_step, buildChild_untyped isInput isOutput k es hget]
  · intro es hmem hget
    constructor
    · intro e he
      exact CreateMayaAttribute_fails_of_child name dataTypeStr arrayType arrayTypeStr
        isInput isOutput entries k es e hat hmem
        (by rw [buildChild_untyped isInput isOutput k es hget]; exact he)
    · intro a ha
      obtain ⟨cs, hcs, hacs⟩ := CreateMayaAttribute_compound_ok _ _ _ _ _ _ _ _ ha
      obtain ⟨child, hchild, hb⟩ := collectChildren_mem isInput isOutput k es entries cs
        hcs hmem
      rw [buildChild_untyped isInput isOutput k es hget] at hb
      obtain ⟨cs2, _, hchild2⟩ := CreateMayaAttribute_compound_ok _ _ _ _ _ _ _ _ hb
      refine ⟨child, ?_, hb, ?_, CreateMayaAttribute_name _ _ _ _ _ _ _ _ _ hb⟩
      · rw [hacs, children_SetupMayaAttribute]
        exact hchild
      · rw [hchild2, kind_SetupMayaAttribute]
        rfl
  · intro v rest acc obj hnull hd
    exact compoundLoop_other_step name isInput isOutput k v rest acc obj hnull hd
  · intro pre post v he hnull hd
    subst he
    have hall : ¬ (pre ++ (k, v) :: post).all (fun e => e.2.isNull) = true :=
      all_isNull_of_nonnull_mem _ ⟨(k, v), by simp, hnull⟩
    rw [CreateMayaAttribute_compound_eq _ _ _ _ _ _ _ hat,
      collectChildren_skip isInput isOutput k v post hd pre]
    cases collectChildren isInput isOutput (pre ++ post) with
    | error e => rfl
    | ok cs =>
      dsimp only
      rw [if_neg hall]

/-- Witness for C17: the untyped nested dictionary under "grp" becomes a
compound child named "grp". -/
theorem untyped_entries_in_expansion_witness :
    ∃ child ∈ (SetupMayaAttribute (createCompound "top"
          [SetupMayaAttribute (createCompound "grp"
            [SetupMayaAttribute (scalarAttr "x" (.dict [("dataType", .string "Scalar")]))
              .DT_Scalar "Scalar" .AT_Single "Single Value" true false])
            .DT_CompoundParam "CompoundParam" .AT_Single "Single Value" true false])
          .DT_CompoundParam "CompoundParam" .AT_Single "Single Value" true false).children,
      CreateMayaAttribute "grp" .DT_CompoundParam "CompoundParam" .AT_Single
        "Single Value" true false (.dict [("x", .dict [("dataType", .string "Scalar")])])
        = .ok child ∧
      child.kind = .compound ∧ child.name = "grp" :=
  ((untyped_entries_in_expansion "top" "CompoundParam" .AT_Single "Single Value" true false
    untypedNestedEntries "grp" (Or.inl rfl)).2.1
    [("x", .dict [("dataType", .string "Scalar")])]
    (List.mem_cons_self _ _) (fun s h => by cases h)).2 _ rfl

/-- C18: the per-entry rebuild gives what building once gives: when the
nested structure has a non-null entry and all children build, so that the
compound created once from the collected children is `b`, the loop ends with
`b` as its object and `CreateMayaAttribute` returns an attribute with the name,
the kind and the ordered children of `b`. -/
theorem rebuild_matches_build_once (name dataTypeStr : String) (arrayType : ArrayType)
    (arrayTypeStr : String) (isInput isOutput : Bool) (entries : List (String × Variant))
    (b : MayaAttr) (hat : arrayType = .AT_Single ∨ arrayType = .AT_Array_Multi)
    (hne : ∃ e ∈ entries, e.2.isNull = false)
    (hb : createCompoundOnce name isInput isOutput entries = .ok b) :
    compoundLoop name isInput isOutput entries [] none = .ok (b.children, some b) ∧
    ∃ a, CreateMayaAttribute name .DT_CompoundParam dataTypeStr arrayType arrayTypeStr
        isInput isOutput (.dict entries) = .ok a ∧
      a.name = b.name ∧ a.kind = b.kind ∧ a.children = b.children := by
  have hall := all_isNull_of_nonnull_mem entries hne
  unfold createCompoundOnce at hb
  cases hcs : collectChildren isInput isOutput entries with
  | error e =>
    rw [hcs] at hb
    cases hb
  | ok cs =>
    rw [hcs] at hb
    cases hb
    constructor
    · rw [compoundLoop_eq_collect, hcs]
      dsimp only
      rw [if_neg hall]
      rfl
    · refine ⟨SetupMayaAttribute (createCompound name cs) .DT_CompoundParam dataTypeStr
        arrayType arrayTypeStr isInput isOutput, ?_, ?_, ?_, ?_⟩
      · rw [CreateMayaAttribute_compound_eq _ _ _ _ _ _ _ hat, hcs]
        dsimp only
        rw [if_neg hall]
      · exact name_SetupMayaAttribute _ _ _ _ _ _ _
      · exact kind_SetupMayaAttribute _ _ _ _ _ _ _
      · exact children_SetupMayaAttribute _ _ _ _ _ _ _

/-- Witness for C18: the two typed entries "a" and "b". -/
theorem rebuild_matches_build_once_witness :
    ∃ b, createCompoundOnce "grp" true false typedEntries = .ok b ∧
      compoundLoop "grp" true false typedEntries [] none = .ok (b.children, some b) ∧
      ∃ a, CreateMayaAttribute "grp" .DT_CompoundParam "CompoundParam" .AT_Single
          "Single Value" true false (.dict typedEntries) = .ok a ∧
        a.name = b.name ∧ a.kind = b.kind ∧ a.children = b.children :=
  ⟨_, rfl, rebuild_matches_build_once "grp" "CompoundParam" .AT_Single "Single Value"
    true false typedEntries _ (Or.inl rfl)
    ⟨("a", .dict [("dataType", .string "Scalar")]), List.mem_cons_self _ _, rfl⟩ rfl⟩

/-- C19 (counterexample): the nested structure `leafWithNestedEntries` holds,
at depth two, the non-null dictionary entry "y" whose `dataType` string
"Bogus" is rejected by `ParseDataType`, yet the top-level call succeeds: "y"
lies inside the dictionary of the Scalar entry "x", which is read for options
only and never expanded. -/
theorem rejected_type_under_leaf_is_ignored :
    getDictValue "x" leafWithNestedEntries
      = some (.dict [("dataType", .string "Scalar"),
                     ("y", .dict [("dataType", .string "Bogus")])]) ∧
    getDictValue "y" [("dataType", .string "Scalar"),
                      ("y", .dict [("dataType", .string "Bogus")])]
      = some (.dict [("dataType", .string "Bogus")]) ∧
    ParseDataType "Bogus" = .error (.exception "Unhandled DataType 'Bogus'") ∧
    ∃ a, CreateMayaAttribute "grp" .DT_CompoundParam "CompoundParam" .AT_Single
        "Single Value" true false (.dict leafWithNestedEntries) = .ok a ∧
      a.children.map MayaAttr.name = ["x"] :=
  ⟨rfl, rfl, rfl, _, rfl, rfl⟩

/-- C19 (amended): a failure on a path that the expansion follows aborts the
whole request. If some entry of the nested structure, or of a dictionary entry
that is itself built as a nested compound (at any depth of such nesting), is a
dictionary whose `dataType` string is rejected by `ParseDataType` or is
illegal for its inferred cardinality, or is a nested compound whose own
expansion fails, then `CreateMayaAttribute` for CompoundParam with Single or
Array-Multi fails, whatever the name, the strings and the other entries. -/
theorem failing_entry_aborts_build (isInput isOutput : Bool)
    (entries : List (String × Variant))
    (h : HasFailingEntry isInput isOutput entries) :
    ∀ (name dataTypeStr : String) (arrayType : ArrayType) (arrayTypeStr : String),
      (arrayType = .AT_Single ∨ arrayType = .AT_Array_Multi) →
      ∃ f, CreateMayaAttribute name .DT_CompoundParam dataTypeStr arrayType arrayTypeStr
        isInput isOutput (.dict entries) = .error f := by
  induction h with
  | rejected hmem hget hparse =>
    intro name dataTypeStr arrayType arrayTypeStr hat
    rename_i es k sub s e
    have hb : buildChild isInput isOutput k sub = .error e := by
      unfold buildChild
      rw [hget]
      dsimp only
      rw [hparse]
    exact CreateMayaAttribute_fails_of_child name dataTypeStr arrayType arrayTypeStr
      isInput isOutput es k sub e hat hmem hb
  | illegal hmem hget hparse hill =>
    intro name dataTypeStr arrayType arrayTypeStr hat
    obtain ⟨msg, hmsg⟩ := CreateMayaAttribute_illegal_error _ _ _ _
      (inferredArrayTypeStr _) isInput isOutput (.dict _) hill
    exact CreateMayaAttribute_fails_of_child name dataTypeStr arrayType arrayTypeStr
      isInput isOutput _ _ _ _ hat hmem
      (by rw [buildChild_typed isInput isOutput _ _ _ _ hget hparse]; exact hmsg)
  | typedExpansionFails hmem hget hparse hfail =>
    intro name dataTypeStr arrayType arrayTypeStr hat
    exact CreateMayaAttribute_fails_of_child name dataTypeStr arrayType arrayTypeStr
      isInput isOutput _ _ _ _ hat hmem
      (by rw [buildChild_typed isInput isOutput _ _ _ _ hget hparse]; exact hfail)
  | untypedExpansionFails hmem hget hfail =>
    intro name dataTypeStr arrayType arrayTypeStr hat
    exact CreateMayaAttribute_fails_of_child name dataTypeStr arrayType arrayTypeStr
      isInput isOutput _ _ _ _ hat hmem
      (by rw [buildChild_untyped isInput isOutput _ _ hget]; exact hfail)
  | nestedTyped hmem hget hparse _ ih =>
    intro name dataTypeStr arrayType arrayTypeStr hat
    obtain ⟨f, hf⟩ := ih _ _ _ (inferredArrayTypeStr _) (inferredArrayType_cases _)
    exact CreateMayaAttribute_fails_of_child name dataTypeStr arrayType arrayTypeStr
      isInput isOutput _ _ _ _ hat hmem
      (by rw [buildChild_typed isInput isOutput _ _ _ _ hget hparse]; exact hf)
  | nestedUntyped hmem hget _ ih =>
    intro name dataTypeStr arrayType arrayTypeStr hat
    obtain ⟨f, hf⟩ := ih _ "CompoundParam" .AT_Single "Single Value" (Or.inl rfl)
    exact CreateMayaAttribute_fails_of_child name dataTypeStr arrayType arrayTypeStr
      isInput isOutput _ _ _ _ hat hmem
      (by rw [buildChild_untyped isInput isOutput _ _ hget]; exact hf)

/-- Witness for C19: a Curve requested as an array two nested compounds down
aborts the build, although the first entry is a valid Scalar. -/
theorem failing_entry_aborts_build_witness :
    ∃ f, CreateMayaAttribute "top" .DT_CompoundParam "CompoundParam" .AT_Array_Multi
      "Array (Multi)" true false (.dict deepIllegalEntries) = .error f :=
  failing_entry_aborts_build true false deepIllegalEntries
    (@HasFailingEntry.nestedUntyped true false deepIllegalEntries "outer"
      [("inner", .dict [("c", .dict [("dataType", .string "Curve[]")])])]
      (List.mem_cons_of_mem _ (List.mem_cons_self _ _)) (fun s h => by cases h)
      (@HasFailingEntry.nestedUntyped true false
        [("inner", .dict [("c", .dict [("dataType", .string "Curve[]")])])] "inner"
        [("c", .dict [("dataType", .string "Curve[]")])]
        (List.mem_cons_self _ _) (fun s h => by cases h)
        (@HasFailingEntry.illegal true false
          [("c", .dict [("dataType", .string "Curve[]")])] "c"
          [("dataType", .string "Curve[]")] "Curve[]" .DT_Curve
          (List.mem_cons_self _ _) rfl rfl rfl)))
    "top" "CompoundParam" .AT_Array_Multi "Array (Multi)" (Or.inr rfl)

/-- C15: on every successful call, every attribute of the returned tree (the
returned attribute, the X/Y/Z children of Vec3 and Euler, the three children of
Color and, recursively, every child of a CompoundParam) has
readable = isOutput and writable = isInput of the top-level call, and has
storable = keyable = (isInput and not isOutput) unless it is of the kind built
for PolygonMesh, Curves, Curve, Lines or SpliceMayaData, where both are false
(`finalizedTree`); the returned attribute is of such a kind exactly when the
call's DataType is one of these five, so for any other DataType its storable
and keyable are (isInput and not isOutput). -/
theorem finalize_reaches_whole_tree (name : String) (dataType : DataType)
    (dataTypeStr : String) (arrayType : ArrayType) (arrayTypeStr : String)
    (isInput isOutput : Bool) (compoundStructure : Variant) (a : MayaAttr)
    (h : CreateMayaAttribute name dataType dataTypeStr arrayType arrayTypeStr
      isInput isOutput compoundStructure = .ok a) :
    finalizedTree isInput isOutput a = true ∧
    (∀ c ∈ a.children, finalizedTree isInput isOutput c = true) ∧
    complexKind a.kind = isComplexType dataType ∧
    a.props.readable = some isOutput ∧ a.props.writable = some isInput ∧
    (isComplexType dataType = false →
      a.props.storable = some (isInput && !isOutput) ∧
      a.props.keyable = some (isInput && !isOutput)) := by
  obtain ⟨hfin, hkind⟩ := CreateMayaAttribute_finalized isInput isOutput compoundStructure
    name dataType dataTypeStr arrayType arrayTypeStr a h
  obtain ⟨attr, hattr⟩ := CreateMayaAttribute_ok_setup _ _ _ _ _ _ _ _ _ h
  refine ⟨hfin, ?_, hkind, ?_, ?_, ?_⟩
  · cases a with
    | mk n k p cs =>
      simp only [finalizedTree, Bool.and_eq_true] at hfin
      exact (finalizedAll_iff isInput isOutput cs).mp hfin.2
  · rw [hattr]
    exact (SetupMayaAttribute_direction _ _ _ _ _ _ _).1
  · rw [hattr]
    exact (SetupMayaAttribute_direction _ _ _ _ _ _ _).2
  · intro hc
    rw [hattr, (SetupMayaAttribute_storable _ _ _ _ _ _ _).1,
      (SetupMayaAttribute_storable _ _ _ _ _ _ _).2, hc]
    exact ⟨rfl, rfl⟩

/-- Witness for C15: a compound holding a Vec3, a Color, a mesh and a nested
compound with a Euler array and a Curve, requested as a pure input. -/
theorem finalize_reaches_whole_tree_witness :
    ∃ a, CreateMayaAttribute "top" .DT_CompoundParam "CompoundParam" .AT_Single
        "Single Value" true false (.dict mixedEntries) = .ok a ∧
      finalizedTree true false a = true ∧
      a.props.readable = some false ∧ a.props.writable = some true ∧
      a.props.storable = some true ∧ a.props.keyable = some true := by
  obtain ⟨a, ha⟩ : ∃ a, CreateMayaAttribute "top" .DT_CompoundParam "CompoundParam"
      .AT_Single "Single Value" true false (.dict mixedEntries) = .ok a := ⟨_, rfl⟩
  obtain ⟨h1, _, _, h4, h5, h6⟩ := finalize_reaches_whole_tree "top" .DT_CompoundParam
    "CompoundParam" .AT_Single "Single Value" true false (.dict mixedEntries) a ha
  exact ⟨a, ha, h1, h4, h5, (h6 rfl).1, (h6 rfl).2⟩

/-- C21: `ParseDataType` maps the part of its input before the first bracket
through the alias table: "Scalar", "Float32", "Float64" give DT_Scalar, the
fourteen integer names give DT_Integer, the thirteen other names give the
like-named DataType; it succeeds exactly when that part is one of these 30
names, compared exactly (so a name in another letter case is refused), and
"Curves" and "Curve" give different DataTypes. -/
theorem ParseDataType_aliases (s : String) (dataType : DataType) :
    (ParseDataType s = .ok dataType ↔ (splitFirst s, dataType) ∈ typeAliases) ∧
    ((∃ d, ParseDataType s = .ok d) ↔ splitFirst s ∈ recognisedTypeNames) ∧
    typeAliases.map Prod.fst = recognisedTypeNames ∧
    typeAliases.length = 30 ∧ (typeAliases.map Prod.fst).Nodup ∧
    (typeAliases.filter (fun p => p.2 = .DT_Scalar)).map Prod.fst
      = ["Scalar", "Float32", "Float64"] ∧
    (typeAliases.filter (fun p => p.2 = .DT_Integer)).map Prod.fst
      = ["Integer", "SInt8", "SInt16", "SInt32", "SInt64", "Byte", "UInt8", "UInt16",
         "Count", "Index", "Size", "UInt32", "DataSize", "UInt64"] ∧
    ParseDataType "Curves" = .ok .DT_Curves ∧ ParseDataType "Curve" = .ok .DT_Curve ∧
    DataType.DT_Curves ≠ DataType.DT_Curve ∧
    ParseDataType "scalar" = .error (.exception "Unhandled DataType 'scalar'") := by
  have h1 : ParseDataType s = .ok dataType ↔ (splitFirst s, dataType) ∈ typeAliases := by
    rw [ParseDataType_ok_iff, typeOfName_eq_some_iff]
  refine ⟨h1, ?_, rfl, rfl, by decide, rfl, rfl, rfl, rfl, by decide, rfl⟩
  constructor
  · rintro ⟨d, hd⟩
    rw [ParseDataType_ok_iff, typeOfName_eq_some_iff] at hd
    rw [recognisedTypeNames_eq]
    exact List.mem_map.mpr ⟨_, hd, rfl⟩
  · intro hn
    rw [recognisedTypeNames_eq, List.mem_map] at hn
    obtain ⟨p, hp, hpn⟩ := hn
    refine ⟨p.2, ?_⟩
    rw [ParseDataType_ok_iff, typeOfName_eq_some_iff, ← hpn]
    exact hp

/-- Witness for C21: "UInt32[]" parses to DT_Integer, "Float64" to DT_Scalar,
and "float64" is not in the table and does not parse to DT_Scalar. -/
theorem ParseDataType_aliases_witness :
    ParseDataType "UInt32[]" = .ok .DT_Integer ∧
    ParseDataType "Float64" = .ok .DT_Scalar ∧
    ¬ ParseDataType "float64" = .ok .DT_Scalar :=
  ⟨(ParseDataType_aliases "UInt32[]" .DT_Integer).1.mpr (by decide),
   (ParseDataType_aliases "Float64" .DT_Scalar).1.mpr (by decide),
   fun h => absurd ((ParseDataType_aliases "float64" .DT_Scalar).1.mp h) (by decide)⟩

end FabricMaya
